import Mathlib

/-!
Shallow embedding of the rackspace-spot python SDK
(`client.py`, `classes.py`, `utils.py`, `rackspace_spot_sdk/manager.py`)
and proofs of the specification claims about it.

Conventions of the embedding:
* the Python field `namespace` is embedded as `nspace` (`namespace` is a
  Lean keyword);
* Python `None` for an optional field is `Option.none`; the Python
  truthiness test `if not s:` on a string field is `s = ""`;
* HTTP traffic is abstracted by an oracle `send : Nat → HttpResponse`
  giving the response to the i-th request actually sent on the wire;
* `datetime` values are carried as their ISO-8601 source strings (no claim
  depends on timestamp parsing);
* machine integers are `Int` (Python integers are unbounded, so no
  wrap-around modelling is needed).
-/

namespace SpotSDK

/-- Embeds `classes.py` `RackspaceSpotAPIError`: the single exception class
the SDK defines, carrying a message and an optional HTTP status code. -/
structure RackspaceSpotAPIError where
  message : String
  status_code : Option Nat := none
deriving Repr, DecidableEq

/-- The Python exception class of an error value raised by the SDK.
`classes.py` defines exactly one exception class and every raise site in
`client.py` and `utils.py` constructs it, so every raised error has class
`RackspaceSpotAPIError`. -/
def raisedClass : RackspaceSpotAPIError → String :=
  fun _ => "RackspaceSpotAPIError"

/-- An HTTP response as observed by `_make_request`.  `jsonBody` models
`response.json()` restricted to what the code inspects: `none` means the
body does not parse as JSON (so `response.text` is used), `some none` means
it parses but has no `message` key, `some (some m)` means it has
`message = m`. -/
structure HttpResponse where
  status : Nat
  jsonBody : Option (Option String) := some none
  text : String := ""
deriving Repr, DecidableEq

/-- Embeds `requests` `Response.ok`: true when the status code is below 400. -/
def respOk (r : HttpResponse) : Bool := r.status < 400

/-- Embeds the error-message construction of `client.py` lines 120-127:
base message plus the JSON `message` field when present, else the raw
response text when the body is not JSON. -/
def apiErrorMessage (r : HttpResponse) : String :=
  let base := "API request failed with status " ++ toString r.status
  match r.jsonBody with
  | some (some m) => base ++ ": " ++ m
  | some none => base
  | none => base ++ ": " ++ r.text

instance {ε α : Type} [DecidableEq ε] [DecidableEq α] :
    DecidableEq (Except ε α) := fun a b =>
  match a, b with
  | .error e, .error f =>
    if h : e = f then .isTrue (by rw [h]) else .isFalse (by simp [h])
  | .ok x, .ok y =>
    if h : x = y then .isTrue (by rw [h]) else .isFalse (by simp [h])
  | .error _, .ok _ => .isFalse (by simp)
  | .ok _, .error _ => .isFalse (by simp)

/-- Observable outcome of one `_make_request` call: how many times
`_authenticate` was invoked, how many HTTP requests were sent, and the
returned response or raised error. -/
structure MakeRequestResult where
  authCalls : Nat
  sends : Nat
  result : Except RackspaceSpotAPIError HttpResponse
deriving Repr, DecidableEq

/-- Embeds `RackspaceSpotClient._make_request` (`client.py` lines 84-138).
`send i` is the response to the i-th HTTP request sent during this call.
On a 401 response to an authenticated request the client re-authenticates
and re-sends once; then any non-ok response is raised as
`RackspaceSpotAPIError` carrying the status code. -/
def make_request (authenticated : Bool) (send : Nat → HttpResponse) :
    MakeRequestResult :=
  let r0 := send 0
  let retried := r0.status == 401 && authenticated
  let r := if retried then send 1 else r0
  let auths := if retried then 1 else 0
  let sends := if retried then 2 else 1
  if respOk r then ⟨auths, sends, .ok r⟩
  else ⟨auths, sends, .error ⟨apiErrorMessage r, some r.status⟩⟩

/-! ## Records (`classes.py`) -/

/-- Embeds the `CloudSpace` dataclass of `classes.py`. -/
@[ext]
structure CloudSpace where
  name : String
  nspace : String
  region : String
  kubernetes_version : String
  webhook : Option String := none
  cni : String := "calico"
  ha_control_plane : Bool := false
  cloud : String := "default"
  api_server_endpoint : Option String := none
  phase : Option String := none
  health : Option String := none
  current_kubernetes_version : Option String := none
  first_ready_timestamp : Option String := none
deriving Repr, DecidableEq

/-- Embeds the `SpotNodePool` dataclass of `classes.py`. -/
@[ext]
structure SpotNodePool where
  name : String
  nspace : String
  cloudspace : String
  server_class : String
  desired : Int
  bid_price : String
  autoscaling_enabled : Bool := false
  min_nodes : Option Int := none
  max_nodes : Option Int := none
  bid_status : Option String := none
  won_count : Option Int := none
deriving Repr, DecidableEq

/-- Embeds the `OnDemandNodePool` dataclass of `classes.py`. -/
@[ext]
structure OnDemandNodePool where
  name : String
  nspace : String
  cloudspace : String
  server_class : String
  desired : Int
  reserved_count : Option Int := none
  reserved_status : Option String := none
deriving Repr, DecidableEq

/-! ## Wire documents and mappers (`client.py`)

A wire document is the JSON body of a resource as exchanged with the API:
`metadata.name`/`metadata.namespace` and the `spec`/`status` keys the code
reads or writes.  Keys the parser reads with `['...']` (required) are plain
fields; keys it reads with `.get(...)` (optional) are `Option` fields, with
`none` standing for an absent key. -/

/-- Wire document for a cloudspace. -/
structure CloudSpaceWire where
  name : String
  nspace : String
  region : String
  kubernetesVersion : String
  webhook : Option String := none
  cni : Option String := none
  HAControlPlane : Option Bool := none
  cloud : Option String := none
  APIServerEndpoint : Option String := none
  phase : Option String := none
  health : Option String := none
  currentKubernetesVersion : Option String := none
  firstReadyTimestamp : Option String := none
deriving Repr, DecidableEq

/-- Embeds `RackspaceSpotClient._parse_cloudspace` (`client.py` lines
363-391): wire document to `CloudSpace` record, with the defaults the code
supplies for absent optional keys. -/
def parse_cloudspace (d : CloudSpaceWire) : CloudSpace :=
  { name := d.name
    nspace := d.nspace
    region := d.region
    kubernetes_version := d.kubernetesVersion
    webhook := d.webhook
    cni := d.cni.getD "calico"
    ha_control_plane := d.HAControlPlane.getD false
    cloud := d.cloud.getD "default"
    api_server_endpoint := d.APIServerEndpoint
    phase := d.phase
    health := d.health
    current_kubernetes_version := d.currentKubernetesVersion
    first_ready_timestamp := d.firstReadyTimestamp }

/-- Embeds the create payload built by `RackspaceSpotClient.create_cloudspace`
(`client.py` lines 330-347): spec fields always sent, `webhook` sent only
when truthy (non-empty), no status keys. -/
def cloudspace_create_payload (cs : CloudSpace) : CloudSpaceWire :=
  { name := cs.name
    nspace := cs.nspace
    region := cs.region
    kubernetesVersion := cs.kubernetes_version
    cni := some cs.cni
    HAControlPlane := some cs.ha_control_plane
    cloud := some cs.cloud
    webhook := match cs.webhook with
               | some w => if w = "" then none else some w
               | none => none }

/-- Wire document for a spot node pool.  `autoscaling_enabled` models the
`spec.autoscaling.enabled` key. -/
structure SpotNodePoolWire where
  name : String
  nspace : String
  cloudSpace : String
  serverClass : String
  desired : Int
  bidPrice : String
  autoscaling_enabled : Option Bool := none
  minNodes : Option Int := none
  maxNodes : Option Int := none
  bidStatus : Option String := none
  wonCount : Option Int := none
deriving Repr, DecidableEq

/-- Embeds `RackspaceSpotClient._parse_spot_node_pool` (`client.py` lines
456-474). -/
def parse_spot_node_pool (d : SpotNodePoolWire) : SpotNodePool :=
  { name := d.name
    nspace := d.nspace
    cloudspace := d.cloudSpace
    server_class := d.serverClass
    desired := d.desired
    bid_price := d.bidPrice
    autoscaling_enabled := d.autoscaling_enabled.getD false
    min_nodes := d.minNodes
    max_nodes := d.maxNodes
    bid_status := d.bidStatus
    won_count := d.wonCount }

/-- Embeds the create payload built by
`RackspaceSpotClient.create_spot_node_pool` (`client.py` lines 418-440):
`autoscaling.enabled` always sent; `minNodes`/`maxNodes` sent only when
`autoscaling_enabled` is true and the value is not `None`. -/
def spot_pool_create_payload (p : SpotNodePool) : SpotNodePoolWire :=
  { name := p.name
    nspace := p.nspace
    cloudSpace := p.cloudspace
    serverClass := p.server_class
    desired := p.desired
    bidPrice := p.bid_price
    autoscaling_enabled := some p.autoscaling_enabled
    minNodes := if p.autoscaling_enabled then p.min_nodes else none
    maxNodes := if p.autoscaling_enabled then p.max_nodes else none }

/-- Wire document for an on-demand node pool. -/
structure OnDemandNodePoolWire where
  name : String
  nspace : String
  cloudSpace : String
  serverClass : String
  desired : Int
  reservedCount : Option Int := none
  reservedStatus : Option String := none
deriving Repr, DecidableEq

/-- Embeds `RackspaceSpotClient._parse_on_demand_node_pool` (`client.py`
lines 529-542). -/
def parse_on_demand_node_pool (d : OnDemandNodePoolWire) : OnDemandNodePool :=
  { name := d.name
    nspace := d.nspace
    cloudspace := d.cloudSpace
    server_class := d.serverClass
    desired := d.desired
    reserved_count := d.reservedCount
    reserved_status := d.reservedStatus }

/-- Embeds the create payload built by
`RackspaceSpotClient.create_on_demand_node_pool` (`client.py` lines
501-513). -/
def od_pool_create_payload (p : OnDemandNodePool) : OnDemandNodePoolWire :=
  { name := p.name
    nspace := p.nspace
    cloudSpace := p.cloudspace
    serverClass := p.server_class
    desired := p.desired }

/-! ## Client operations (`client.py`)

Each operation composes `make_request` with the mapper for its kind.
`send` is the HTTP oracle for the requests of that one operation; `body`
is the wire document of the successful response. -/

/-- Embeds `RackspaceSpotClient.get_cloudspace` (`client.py` lines
288-326).  The source contains a dead `return None` branch for status 404
and a dead re-raise branch after `_make_request` (which already raised on
any non-ok status); both are kept faithfully, hence the `Option` result. -/
def get_cloudspace (send : Nat → HttpResponse) (name : String)
    (body : CloudSpaceWire) :
    Except RackspaceSpotAPIError (Option CloudSpace) :=
  match (make_request true send).result with
  | .error e => .error e
  | .ok r =>
    if r.status == 404 then .ok none
    else if !(respOk r) then
      .error ⟨"Failed to get cloudspace " ++ name ++ ": " ++ toString r.status,
              some r.status⟩
    else .ok (some (parse_cloudspace body))

/-- Embeds `RackspaceSpotClient.get_spot_node_pool` (`client.py` lines
405-410). -/
def get_spot_node_pool (send : Nat → HttpResponse) (body : SpotNodePoolWire) :
    Except RackspaceSpotAPIError SpotNodePool :=
  match (make_request true send).result with
  | .error e => .error e
  | .ok _ => .ok (parse_spot_node_pool body)

/-- Embeds `RackspaceSpotClient.get_on_demand_node_pool` (`client.py` lines
488-493). -/
def get_on_demand_node_pool (send : Nat → HttpResponse)
    (body : OnDemandNodePoolWire) :
    Except RackspaceSpotAPIError OnDemandNodePool :=
  match (make_request true send).result with
  | .error e => .error e
  | .ok _ => .ok (parse_on_demand_node_pool body)

/-- Embeds the in-place name assignment at the top of
`RackspaceSpotClient.create_spot_node_pool` (`client.py` lines 415-416):
when the supplied name is falsy the generated lowercase UUID (`gen`) is
written into the caller-supplied record. -/
def spot_pool_assign_name (gen : String) (p : SpotNodePool) : SpotNodePool :=
  if p.name = "" then { p with name := gen } else p

/-- Embeds the in-place name assignment at the top of
`RackspaceSpotClient.create_on_demand_node_pool` (`client.py` lines
498-499). -/
def od_pool_assign_name (gen : String) (p : OnDemandNodePool) :
    OnDemandNodePool :=
  if p.name = "" then { p with name := gen } else p

/-- Embeds `RackspaceSpotClient.create_spot_node_pool` (`client.py` lines
412-449).  `gen` is the UUID the call would generate.  The server is
modelled as echoing the created resource, i.e. the POSTed spec with status
keys absent (creation is fire-and-forget against an asynchronous
reconciler, so status is absent immediately after creation).  Returns the
caller-supplied record as it stands after the call (its `name` may have
been mutated) and the record parsed from the response. -/
def create_spot_node_pool (gen : String) (p : SpotNodePool) :
    SpotNodePool × SpotNodePool :=
  let p' := spot_pool_assign_name gen p
  (p', parse_spot_node_pool (spot_pool_create_payload p'))

/-- Embeds `RackspaceSpotClient.create_on_demand_node_pool` (`client.py`
lines 495-522), with the server echo modelled as for
`create_spot_node_pool`. -/
def create_on_demand_node_pool (gen : String) (p : OnDemandNodePool) :
    OnDemandNodePool × OnDemandNodePool :=
  let p' := od_pool_assign_name gen p
  (p', parse_on_demand_node_pool (od_pool_create_payload p'))

/-- Embeds `RackspaceSpotClient.create_cloudspace` (`client.py` lines
328-356), with the server echo modelled as for `create_spot_node_pool`.
The source never assigns into the caller-supplied record, so only the
parsed response record is returned. -/
def create_cloudspace (cs : CloudSpace) : CloudSpace :=
  parse_cloudspace (cloudspace_create_payload cs)

/-! ## Readiness wait (`utils.py` `wait_for_cloudspace_ready`)

The poll oracle `polls i` gives the outcome of the i-th
`client.get_cloudspace` call: the fetched record, or the raised error
(status 404 meaning not-found).  Wall-clock time is modelled by the
accumulated sleep: the loop guard `time.time() - start_time < timeout` is
checked against the sum of the `poll_interval` sleeps performed so far,
every other step taking no time.  The recursion is driven by a fuel
argument; with `poll_interval ≥ 1` the fuel `timeout` chosen in
`wait_for_cloudspace_ready` is never exhausted before the time guard
fails, and when it is exhausted the result coincides with the timeout
branch of the code. -/

/-- Error raised at `utils.py` line 103 when the polled phase is Failed. -/
def failed_deploy_error (name : String) : RackspaceSpotAPIError :=
  ⟨"Cloudspace " ++ name ++ " failed to deploy", none⟩

/-- Error raised at `utils.py` line 116 when the timeout elapses. -/
def wait_timeout_error (name : String) (timeout : Nat) :
    RackspaceSpotAPIError :=
  ⟨"Cloudspace " ++ name ++ " did not become ready within " ++
     toString timeout ++ " seconds", none⟩

/-- One polling loop of `wait_for_cloudspace_ready` (`utils.py` lines
95-116): `i` is the index of the next poll, `t` the time elapsed so far. -/
def waitLoop (polls : Nat → Except RackspaceSpotAPIError CloudSpace)
    (name : String) (timeout poll_interval : Nat) :
    Nat → Nat → Nat → Except RackspaceSpotAPIError CloudSpace
  | 0, _, _ => .error (wait_timeout_error name timeout)
  | fuel + 1, i, t =>
    if t < timeout then
      match polls i with
      | .ok cs =>
        if cs.phase == some "Ready" && cs.health == some "Healthy" then
          .ok cs
        else if cs.phase == some "Failed" then
          .error (failed_deploy_error name)
        else
          waitLoop polls name timeout poll_interval fuel (i + 1)
            (t + poll_interval)
      | .error e =>
        if e.status_code == some 404 then
          waitLoop polls name timeout poll_interval fuel (i + 1)
            (t + poll_interval)
        else .error e
    else .error (wait_timeout_error name timeout)

/-- Embeds `wait_for_cloudspace_ready` (`utils.py` lines 68-116). -/
def wait_for_cloudspace_ready
    (polls : Nat → Except RackspaceSpotAPIError CloudSpace)
    (name : String) (timeout poll_interval : Nat) :
    Except RackspaceSpotAPIError CloudSpace :=
  waitLoop polls name timeout poll_interval timeout 0 0

/-- A poll outcome on which the loop keeps polling: a record that is
neither Ready-and-Healthy nor Failed, or a raised 404. -/
def nonterminalPoll : Except RackspaceSpotAPIError CloudSpace → Bool
  | .ok cs =>
    !(cs.phase == some "Ready" && cs.health == some "Healthy") &&
      !(cs.phase == some "Failed")
  | .error e => e.status_code == some 404

/-! ## Manager layer (`rackspace_spot_sdk/manager.py`)

The manager composes client calls.  Its environment is modelled as a
`World`: the resources the remote API currently stores, a counter feeding
the UUID generator, and two fault-injection fields letting the server
answer a chosen HTTP status on `get_cloudspace` or `delete_cloudspace`
(these model the "any other failure" cases of the spec).  Each world-level
operation is the composite behaviour of client plus server: a `get` of an
absent resource is the raised 404 error, a `create` stores the echoed
record, a `delete` of an absent resource raises 404.  Every operation also
reports the API call it issued, so call traces can be inspected. -/

/-- Error raised by `_make_request` for a plain-status response. -/
def http_error (s : Nat) : RackspaceSpotAPIError :=
  ⟨"API request failed with status " ++ toString s, some s⟩

/-- Calls a manager workflow can issue against the client. -/
inductive ApiCall where
  | getCloudspace (ns name : String)
  | createCloudspace (ns name : String)
  | createSpotPool (ns name : String)
  | createOnDemandPool (ns name : String)
  | listSpotPools (ns : String)
  | listOnDemandPools (ns : String)
  | listCloudspaces (ns : String)
  | deleteSpotPool (ns name : String)
  | deleteOnDemandPool (ns name : String)
  | deleteCloudspace (ns name : String)
deriving Repr, DecidableEq

/-- The remote state the manager operates against. -/
structure World where
  cloudspaces : List CloudSpace := []
  spot_pools : List SpotNodePool := []
  on_demand_pools : List OnDemandNodePool := []
  fresh : Nat := 0
  get_cloudspace_status : Option Nat := none
  delete_cloudspace_status : Option Nat := none
deriving Repr, DecidableEq

/-- The k-th generated lowercase UUID. -/
def uuid_name (k : Nat) : String := "uuid-" ++ toString k

/-- World-level `client.get_cloudspace`: injected fault status, or the
stored record, or the raised 404. -/
def w_get_cloudspace (w : World) (ns name : String) :
    Except RackspaceSpotAPIError CloudSpace :=
  match w.get_cloudspace_status with
  | some s => .error (http_error s)
  | none =>
    match w.cloudspaces.find? (fun c => c.nspace == ns && c.name == name) with
    | some c => .ok c
    | none => .error (http_error 404)

/-- World-level `client.create_cloudspace`: the server stores and the call
returns the echoed record. -/
def w_create_cloudspace (w : World) (cs : CloudSpace) : CloudSpace × World :=
  let created := create_cloudspace cs
  (created, { w with cloudspaces := w.cloudspaces ++ [created] })

/-- World-level `client.create_spot_node_pool`. -/
def w_create_spot_pool (w : World) (p : SpotNodePool) :
    SpotNodePool × World × ApiCall :=
  let created := (create_spot_node_pool (uuid_name w.fresh) p).2
  (created,
   { w with
     spot_pools := w.spot_pools ++ [created]
     fresh := if p.name = "" then w.fresh + 1 else w.fresh },
   .createSpotPool p.nspace created.name)

/-- World-level `client.create_on_demand_node_pool`. -/
def w_create_od_pool (w : World) (p : OnDemandNodePool) :
    OnDemandNodePool × World × ApiCall :=
  let created := (create_on_demand_node_pool (uuid_name w.fresh) p).2
  (created,
   { w with
     on_demand_pools := w.on_demand_pools ++ [created]
     fresh := if p.name = "" then w.fresh + 1 else w.fresh },
   .createOnDemandPool p.nspace created.name)

/-- World-level `client.delete_spot_node_pool`: removes the resource, or
raises 404 when it is absent. -/
def w_delete_spot_pool (w : World) (ns name : String) :
    Except RackspaceSpotAPIError World :=
  if w.spot_pools.any (fun p => p.nspace == ns && p.name == name) then
    .ok { w with
          spot_pools :=
            w.spot_pools.filter (fun p => !(p.nspace == ns && p.name == name)) }
  else .error (http_error 404)

/-- World-level `client.delete_on_demand_node_pool`. -/
def w_delete_od_pool (w : World) (ns name : String) :
    Except RackspaceSpotAPIError World :=
  if w.on_demand_pools.any (fun p => p.nspace == ns && p.name == name) then
    .ok { w with
          on_demand_pools :=
            w.on_demand_pools.filter
              (fun p => !(p.nspace == ns && p.name == name)) }
  else .error (http_error 404)

/-- World-level `client.delete_cloudspace`, with fault injection. -/
def w_delete_cloudspace (w : World) (ns name : String) :
    Except RackspaceSpotAPIError World :=
  match w.delete_cloudspace_status with
  | some s => .error (http_error s)
  | none =>
    if w.cloudspaces.any (fun c => c.nspace == ns && c.name == name) then
      .ok { w with
            cloudspaces :=
              w.cloudspaces.filter
                (fun c => !(c.nspace == ns && c.name == name)) }
    else .error (http_error 404)

/-- A spot pool configuration entry of the `spot_pools` argument of
`create_environment` (the keyword arguments passed through to the
`SpotNodePool` constructor, as in `nodepools_config.py`). -/
structure SpotPoolSpec where
  name : String
  server_class : String
  desired : Int
  bid_price : String
  autoscaling_enabled : Bool := false
  min_nodes : Option Int := none
  max_nodes : Option Int := none
deriving Repr, DecidableEq

/-- An on-demand pool configuration entry of the `on_demand_pools`
argument of `create_environment`. -/
structure OnDemandPoolSpec where
  name : String
  server_class : String
  desired : Int
deriving Repr, DecidableEq

/-- The `SpotNodePool` record `create_environment` builds from a pool
configuration entry (`manager.py` lines 78-82). -/
def spec_to_spot_pool (ns csname : String) (c : SpotPoolSpec) : SpotNodePool :=
  { name := c.name
    nspace := ns
    cloudspace := csname
    server_class := c.server_class
    desired := c.desired
    bid_price := c.bid_price
    autoscaling_enabled := c.autoscaling_enabled
    min_nodes := c.min_nodes
    max_nodes := c.max_nodes }

/-- The `OnDemandNodePool` record `create_environment` builds from a pool
configuration entry (`manager.py` lines 89-93). -/
def spec_to_od_pool (ns csname : String) (c : OnDemandPoolSpec) :
    OnDemandNodePool :=
  { name := c.name
    nspace := ns
    cloudspace := csname
    server_class := c.server_class
    desired := c.desired }

/-- The `result` dictionary returned by `create_environment` and consumed
by `cleanup_environment`. -/
structure EnvResult where
  cloudspace : CloudSpace
  spot_pools : List SpotNodePool
  on_demand_pools : List OnDemandNodePool
deriving Repr, DecidableEq

/-- The spot-pool creation loop of `create_environment` (`manager.py`
lines 76-84): one create call per configuration entry, in order. -/
def createSpotPools (ns csname : String) :
    World → List SpotPoolSpec → List SpotNodePool × World × List ApiCall
  | w, [] => ([], w, [])
  | w, c :: rest =>
    let (p, w', call) := w_create_spot_pool w (spec_to_spot_pool ns csname c)
    let (ps, w'', tr) := createSpotPools ns csname w' rest
    (p :: ps, w'', call :: tr)

/-- The on-demand-pool creation loop of `create_environment` (`manager.py`
lines 86-95). -/
def createOnDemandPools (ns csname : String) :
    World → List OnDemandPoolSpec →
      List OnDemandNodePool × World × List ApiCall
  | w, [] => ([], w, [])
  | w, c :: rest =>
    let (p, w', call) := w_create_od_pool w (spec_to_od_pool ns csname c)
    let (ps, w'', tr) := createOnDemandPools ns csname w' rest
    (p :: ps, w'', call :: tr)

/-- Embeds `RackspaceSpotManager.create_environment` (`manager.py` lines
22-99).  The initial `get_cloudspace` is wrapped in `except Exception:
cloudspace = None`, so ANY failure of the get - not only 404 - yields
`none` and leads to a create; a fetched record is reused as is.  Then one
create call is issued per pool configuration entry.  (The final fixed
`time.sleep` takes no part in the state model.) -/
def create_environment (w : World) (cloudspace_name ns region kv : String)
    (sp : List SpotPoolSpec) (od : List OnDemandPoolSpec) :
    EnvResult × World × List ApiCall :=
  let got : Option CloudSpace :=
    match w_get_cloudspace w ns cloudspace_name with
    | .ok c => some c
    | .error _ => none
  let acquired : CloudSpace × World × List ApiCall :=
    match got with
    | some c => (c, w, [])
    | none =>
      let obj : CloudSpace :=
        { name := cloudspace_name, nspace := ns, region := region,
          kubernetes_version := kv }
      let (created, w') := w_create_cloudspace w obj
      (created, w', [.createCloudspace ns cloudspace_name])
  let (cs, w1, trC) := acquired
  let (spots, w2, trS) := createSpotPools ns cloudspace_name w1 sp
  let (ods, w3, trO) := createOnDemandPools ns cloudspace_name w2 od
  (⟨cs, spots, ods⟩, w3,
   .getCloudspace ns cloudspace_name :: trC ++ trS ++ trO)

/-- The sequence of names the nested spot-pool cleanup loops delete
(`manager.py` lines 115-118): for each pool of the caller-supplied
resource set, one delete per listed pool bearing the same name. -/
def spot_delete_names (users snapshot : List SpotNodePool) : List String :=
  users.flatMap fun u =>
    snapshot.filterMap fun a => if a.name == u.name then some u.name else none

/-- The sequence of names the nested on-demand-pool cleanup loops delete
(`manager.py` lines 122-125). -/
def od_delete_names (users snapshot : List OnDemandNodePool) : List String :=
  users.flatMap fun u =>
    snapshot.filterMap fun a => if a.name == u.name then some u.name else none

/-- The sequence of cloudspace names the cleanup loop deletes
(`manager.py` lines 129-131). -/
def cs_delete_names (target : String) (snapshot : List CloudSpace) :
    List String :=
  snapshot.filterMap fun c => if c.name == target then some c.name else none

/-- Runs the spot-pool deletes in order, stopping at the first raised
error (which the surrounding `try` of `cleanup_environment` will catch). -/
def runSpotDeletes (ns : String) :
    World → List String →
      Option RackspaceSpotAPIError × World × List ApiCall
  | w, [] => (none, w, [])
  | w, n :: rest =>
    match w_delete_spot_pool w ns n with
    | .ok w' =>
      let (e, w'', tr) := runSpotDeletes ns w' rest
      (e, w'', .deleteSpotPool ns n :: tr)
    | .error e => (some e, w, [.deleteSpotPool ns n])

/-- Runs the on-demand-pool deletes in order, stopping at the first
raised error. -/
def runOdDeletes (ns : String) :
    World → List String →
      Option RackspaceSpotAPIError × World × List ApiCall
  | w, [] => (none, w, [])
  | w, n :: rest =>
    match w_delete_od_pool w ns n with
    | .ok w' =>
      let (e, w'', tr) := runOdDeletes ns w' rest
      (e, w'', .deleteOnDemandPool ns n :: tr)
    | .error e => (some e, w, [.deleteOnDemandPool ns n])

/-- Runs the cloudspace deletes in order, stopping at the first raised
error. -/
def runCsDeletes (ns : String) :
    World → List String →
      Option RackspaceSpotAPIError × World × List ApiCall
  | w, [] => (none, w, [])
  | w, n :: rest =>
    match w_delete_cloudspace w ns n with
    | .ok w' =>
      let (e, w'', tr) := runCsDeletes ns w' rest
      (e, w'', .deleteCloudspace ns n :: tr)
    | .error e => (some e, w, [.deleteCloudspace ns n])

/-- Embeds `RackspaceSpotManager.cleanup_environment` (`manager.py` lines
101-138): list the spot pools of the namespace and delete those matching
the resource set by name, then likewise for on-demand pools, then the
cloudspaces matching the resource set cloudspace name; the whole body is
inside `try`, so the first raised error makes the call return `False`
(state changes made before the error persist), and `True` is returned
otherwise. -/
def cleanup_environment (w : World) (ns : String) (resources : EnvResult) :
    Bool × World × List ApiCall :=
  let snapS := w.spot_pools.filter (fun p => p.nspace == ns)
  let (e1, w1, tr1) :=
    runSpotDeletes ns w (spot_delete_names resources.spot_pools snapS)
  match e1 with
  | some _ => (false, w1, .listSpotPools ns :: tr1)
  | none =>
    let snapO := w1.on_demand_pools.filter (fun p => p.nspace == ns)
    let (e2, w2, tr2) :=
      runOdDeletes ns w1 (od_delete_names resources.on_demand_pools snapO)
    match e2 with
    | some _ =>
      (false, w2, .listSpotPools ns :: tr1 ++ .listOnDemandPools ns :: tr2)
    | none =>
      let snapC := w2.cloudspaces.filter (fun c => c.nspace == ns)
      let (e3, w3, tr3) :=
        runCsDeletes ns w2 (cs_delete_names resources.cloudspace.name snapC)
      (e3.isNone, w3,
       .listSpotPools ns :: tr1 ++ .listOnDemandPools ns :: tr2 ++
         .listCloudspaces ns :: tr3)

/-- True for the calls of the spot-pool phase of cleanup. -/
def isSpotPhase : ApiCall → Bool
  | .listSpotPools _ => true
  | .deleteSpotPool _ _ => true
  | _ => false

/-- True for the calls of the on-demand phase of cleanup. -/
def isOdPhase : ApiCall → Bool
  | .listOnDemandPools _ => true
  | .deleteOnDemandPool _ _ => true
  | _ => false

/-- True for the calls of the cloudspace phase of cleanup. -/
def isCsPhase : ApiCall → Bool
  | .listCloudspaces _ => true
  | .deleteCloudspace _ _ => true
  | _ => false

/-- True exactly for cloudspace create calls. -/
def isCreateCloudspace : ApiCall → Bool
  | .createCloudspace _ _ => true
  | _ => false

/-- True exactly for spot pool create calls. -/
def isCreateSpotPool : ApiCall → Bool
  | .createSpotPool _ _ => true
  | _ => false

/-- True exactly for on-demand pool create calls. -/
def isCreateOnDemandPool : ApiCall → Bool
  | .createOnDemandPool _ _ => true
  | _ => false

/-! ## Claims about the transport and the mappers -/

/-- C1: for every authenticated request whose first HTTP response has
status 401, `_make_request` performs exactly one re-authentication call
and replays the request at most once (two requests sent in total); if the
replayed request also returns 401, the call raises
`RackspaceSpotAPIError` carrying status code 401, without any second
re-authentication attempt. -/
theorem make_request_single_reauth_on_401 (send : Nat → HttpResponse)
    (h : (send 0).status = 401) :
    (make_request true send).authCalls = 1 ∧
    (make_request true send).sends = 2 ∧
    ((send 1).status = 401 →
      (make_request true send).result =
        .error ⟨apiErrorMessage (send 1), some 401⟩) := by
  refine ⟨?_, ?_, ?_⟩
  · cases hr : respOk (send 1) <;> simp [make_request, h, hr]
  · cases hr : respOk (send 1) <;> simp [make_request, h, hr]
  · intro h1
    simp [make_request, h, respOk, h1]

/-- Request oracle answering 401 to every request sent. -/
def send401 : Nat → HttpResponse := fun _ => { status := 401 }

/-- Witness for C1 at a concrete oracle that answers 401 twice. -/
theorem make_request_single_reauth_on_401_witness :
    (send401 0).status = 401 ∧ (send401 1).status = 401 ∧
    (make_request true send401).authCalls = 1 ∧
    (make_request true send401).sends = 2 ∧
    (make_request true send401).result =
      .error ⟨apiErrorMessage (send401 1), some 401⟩ := by
  have h := make_request_single_reauth_on_401 send401 rfl
  exact ⟨rfl, rfl, h.1, h.2.1, h.2.2 rfl⟩

/-- Request oracle answering 404 to every request sent. -/
def send404 : Nat → HttpResponse := fun _ => { status := 404 }

/-- Request oracle answering 500 to every request sent. -/
def send500 : Nat → HttpResponse := fun _ => { status := 500 }

/-- A wire cloudspace document used as response body in examples. -/
def wireCsEx : CloudSpaceWire :=
  { name := "c1", nspace := "n1", region := "r1", kubernetesVersion := "1.31.1" }

/-- C2 counterexample: the error `get_cloudspace` raises when the server
answers 404 is a value of the very same (single) exception class
`RackspaceSpotAPIError` as the error raised for a generic 500 answer -
the code defines no distinct NotFoundError kind; 404 is distinguished only
by the `status_code` field carried inside the one class. -/
theorem get_404_not_distinct_kind_counterexample :
    get_cloudspace send404 "c1" wireCsEx = .error (http_error 404) ∧
    get_cloudspace send500 "c1" wireCsEx = .error (http_error 500) ∧
    raisedClass (http_error 404) = raisedClass (http_error 500) := by
  refine ⟨?_, ?_, rfl⟩ <;> decide

/-- C2 amended: for every resource kind, when the server answers 404 to a
get, the operation raises `RackspaceSpotAPIError` with
`status_code = some 404`, so callers can branch on existence via the
status code field (the error is not a distinct exception kind, see the
counterexample). -/
theorem get_404_raises_status_404 (send : Nat → HttpResponse)
    (name : String) (b1 : CloudSpaceWire) (b2 : SpotNodePoolWire)
    (b3 : OnDemandNodePoolWire) (h : (send 0).status = 404) :
    get_cloudspace send name b1 =
      .error ⟨apiErrorMessage (send 0), some 404⟩ ∧
    get_spot_node_pool send b2 =
      .error ⟨apiErrorMessage (send 0), some 404⟩ ∧
    get_on_demand_node_pool send b3 =
      .error ⟨apiErrorMessage (send 0), some 404⟩ := by
  have hm : (make_request true send).result =
      .error ⟨apiErrorMessage (send 0), some 404⟩ := by
    simp [make_request, h, respOk]
  refine ⟨?_, ?_, ?_⟩ <;>
    simp [get_cloudspace, get_spot_node_pool, get_on_demand_node_pool, hm]

/-- A wire spot pool document used as response body in examples. -/
def wireSpEx : SpotNodePoolWire :=
  { name := "p1", nspace := "n1", cloudSpace := "c1",
    serverClass := "gp", desired := 1, bidPrice := "0.5" }

/-- A wire on-demand pool document used as response body in examples. -/
def wireOdEx : OnDemandNodePoolWire :=
  { name := "q1", nspace := "n1", cloudSpace := "c1",
    serverClass := "gp", desired := 1 }

/-- Witness for the amended C2 at the concrete 404 oracle. -/
theorem get_404_raises_status_404_witness :
    (send404 0).status = 404 ∧
    get_cloudspace send404 "c1" wireCsEx =
      .error ⟨apiErrorMessage (send404 0), some 404⟩ ∧
    get_spot_node_pool send404 wireSpEx =
      .error ⟨apiErrorMessage (send404 0), some 404⟩ ∧
    get_on_demand_node_pool send404 wireOdEx =
      .error ⟨apiErrorMessage (send404 0), some 404⟩ := by
  have h := get_404_raises_status_404 send404 "c1" wireCsEx wireSpEx wireOdEx rfl
  exact ⟨rfl, h.1, h.2.1, h.2.2⟩

/-- C8: for each of the three creatable resource kinds, parsing the wire
document produced for a record yields the record back, provided the
status fields are absent and the optional fields are among those the wire
mapper preserves (for a cloudspace, a webhook that is `some ""` would be
dropped by the truthiness test; for a spot pool with autoscaling
disabled, min/max bounds would be dropped). -/
theorem wire_roundtrip (cs : CloudSpace) (sp : SpotNodePool)
    (od : OnDemandNodePool) :
    (cs.api_server_endpoint = none → cs.phase = none → cs.health = none →
     cs.current_kubernetes_version = none → cs.first_ready_timestamp = none →
     cs.webhook ≠ some "" →
     parse_cloudspace (cloudspace_create_payload cs) = cs) ∧
    (sp.bid_status = none → sp.won_count = none →
     (sp.autoscaling_enabled = false →
       sp.min_nodes = none ∧ sp.max_nodes = none) →
     parse_spot_node_pool (spot_pool_create_payload sp) = sp) ∧
    (od.reserved_count = none → od.reserved_status = none →
     parse_on_demand_node_pool (od_pool_create_payload od) = od) := by
  refine ⟨?_, ?_, ?_⟩
  · intro h1 h2 h3 h4 h5 h6
    cases hcw : cs.webhook with
    | none =>
      apply CloudSpace.ext <;>
        simp [parse_cloudspace, cloudspace_create_payload, h1, h2, h3, h4, h5,
              hcw]
    | some w =>
      have hne : ¬(w = "") := fun hh => h6 (hcw.trans (by rw [hh]))
      apply CloudSpace.ext <;>
        simp [parse_cloudspace, cloudspace_create_payload, h1, h2, h3, h4, h5,
              hcw, hne]
  · intro h1 h2 h3
    cases ha : sp.autoscaling_enabled with
    | false =>
      apply SpotNodePool.ext <;>
        simp [parse_spot_node_pool, spot_pool_create_payload, ha,
              (h3 ha).1, (h3 ha).2, h1, h2]
    | true =>
      apply SpotNodePool.ext <;>
        simp [parse_spot_node_pool, spot_pool_create_payload, ha, h1, h2]
  · intro h1 h2
    apply OnDemandNodePool.ext <;>
      simp [parse_on_demand_node_pool, od_pool_create_payload, h1, h2]

/-- A cloudspace record with spec fields only, used as witness input. -/
def csEx : CloudSpace :=
  { name := "c1", nspace := "n1", region := "r1",
    kubernetes_version := "1.31.1", webhook := some "https://w" }

/-- A spot pool record with autoscaling enabled, used as witness input. -/
def spEx : SpotNodePool :=
  { name := "p1", nspace := "n1", cloudspace := "c1", server_class := "gp",
    desired := 2, bid_price := "0.55", autoscaling_enabled := true,
    min_nodes := some 1, max_nodes := some 4 }

/-- An on-demand pool record used as witness input. -/
def odEx : OnDemandNodePool :=
  { name := "q1", nspace := "n1", cloudspace := "c1", server_class := "gp",
    desired := 1 }

/-- Witness for C8 at concrete records of the three kinds. -/
theorem wire_roundtrip_witness :
    parse_cloudspace (cloudspace_create_payload csEx) = csEx ∧
    parse_spot_node_pool (spot_pool_create_payload spEx) = spEx ∧
    parse_on_demand_node_pool (od_pool_create_payload odEx) = odEx := by
  have h := wire_roundtrip csEx spEx odEx
  exact ⟨h.1 rfl rfl rfl rfl rfl (by decide), h.2.1 rfl rfl (by decide),
         h.2.2 rfl rfl⟩

/-- A spot pool record supplied without a name (Python falsy name). -/
def spNoName : SpotNodePool :=
  { name := "", nspace := "n1", cloudspace := "c1", server_class := "gp",
    desired := 1, bid_price := "0.5" }

/-- C9 counterexample: a caller-supplied spot pool record with an empty
name is mutated in place by `create_spot_node_pool` - after the call the
caller record carries the generated UUID name, so the record passed to
create is not left unchanged. -/
theorem create_mutates_record_counterexample :
    (create_spot_node_pool (uuid_name 0) spNoName).1 ≠ spNoName ∧
    (create_spot_node_pool (uuid_name 0) spNoName).1.name = "uuid-0" ∧
    spNoName.name = "" := by
  refine ⟨?_, by decide, rfl⟩
  decide

/-- C9 amended: the create operations leave every field of the
caller-supplied record unchanged EXCEPT that `create_spot_node_pool` and
`create_on_demand_node_pool` write the generated name into the record
when the supplied name is empty; a record with a non-empty name is
returned to the caller exactly unchanged (and `create_cloudspace` never
assigns into its argument). -/
theorem create_mutates_only_empty_name (gen : String) (sp : SpotNodePool)
    (od : OnDemandNodePool) :
    ((create_spot_node_pool gen sp).1 =
      if sp.name = "" then { sp with name := gen } else sp) ∧
    ((create_on_demand_node_pool gen od).1 =
      if od.name = "" then { od with name := gen } else od) := by
  exact ⟨rfl, rfl⟩

/-- A spot pool record with autoscaling disabled but bounds supplied. -/
def spBounds : SpotNodePool :=
  { name := "p1", nspace := "n1", cloudspace := "c1", server_class := "gp",
    desired := 1, bid_price := "0.5", autoscaling_enabled := false,
    min_nodes := some 1, max_nodes := some 5 }

/-- C10: `create_spot_node_pool` emits the autoscaling `minNodes` and
`maxNodes` keys into the create payload only when `autoscaling_enabled`
is true; with autoscaling disabled, supplied bounds are silently omitted
from the wire payload and the record returned by create (parsed from the
echoed payload) has `min_nodes = none` and `max_nodes = none`. -/
theorem autoscaling_gates_bounds (gen : String) (p : SpotNodePool) :
    (p.autoscaling_enabled = false →
      (spot_pool_create_payload p).minNodes = none ∧
      (spot_pool_create_payload p).maxNodes = none ∧
      (create_spot_node_pool gen p).2.min_nodes = none ∧
      (create_spot_node_pool gen p).2.max_nodes = none) ∧
    (p.autoscaling_enabled = true →
      (spot_pool_create_payload p).minNodes = p.min_nodes ∧
      (spot_pool_create_payload p).maxNodes = p.max_nodes) := by
  constructor
  · intro h
    by_cases hn : p.name = "" <;>
      simp [spot_pool_create_payload, create_spot_node_pool,
            parse_spot_node_pool, spot_pool_assign_name, h, hn]
  · intro h
    simp [spot_pool_create_payload, h]

/-- Witness for C10 at a concrete pool with autoscaling off and bounds
supplied. -/
theorem autoscaling_gates_bounds_witness :
    spBounds.autoscaling_enabled = false ∧ spBounds.min_nodes = some 1 ∧
    spBounds.max_nodes = some 5 ∧
    (spot_pool_create_payload spBounds).minNodes = none ∧
    (spot_pool_create_payload spBounds).maxNodes = none ∧
    (create_spot_node_pool (uuid_name 0) spBounds).2.min_nodes = none ∧
    (create_spot_node_pool (uuid_name 0) spBounds).2.max_nodes = none := by
  have h := (autoscaling_gates_bounds (uuid_name 0) spBounds).1 rfl
  exact ⟨rfl, rfl, rfl, h.1, h.2.1, h.2.2.1, h.2.2.2⟩

/-! ## Claims about the readiness wait -/

/-- Unfolding equation of `waitLoop` when time remains and the poll
returns a record. -/
theorem waitLoop_succ_ok
    (polls : Nat → Except RackspaceSpotAPIError CloudSpace)
    (name : String) (timeout poll_interval fuel i t : Nat) (c : CloudSpace)
    (ht : t < timeout) (hp : polls i = .ok c) :
    waitLoop polls name timeout poll_interval (fuel + 1) i t =
      (if c.phase == some "Ready" && c.health == some "Healthy" then .ok c
       else if c.phase == some "Failed" then .error (failed_deploy_error name)
       else waitLoop polls name timeout poll_interval fuel (i + 1)
              (t + poll_interval)) := by
  rw [waitLoop, if_pos ht, hp]

/-- Unfolding equation of `waitLoop` when time remains and the poll
raises an error. -/
theorem waitLoop_succ_error
    (polls : Nat → Except RackspaceSpotAPIError CloudSpace)
    (name : String) (timeout poll_interval fuel i t : Nat)
    (e : RackspaceSpotAPIError)
    (ht : t < timeout) (hp : polls i = .error e) :
    waitLoop polls name timeout poll_interval (fuel + 1) i t =
      (if e.status_code == some 404 then
         waitLoop polls name timeout poll_interval fuel (i + 1)
           (t + poll_interval)
       else .error e) := by
  rw [waitLoop, if_pos ht, hp]

/-- Unfolding equation of `waitLoop` once the time budget is spent. -/
theorem waitLoop_succ_notime
    (polls : Nat → Except RackspaceSpotAPIError CloudSpace)
    (name : String) (timeout poll_interval fuel i t : Nat)
    (ht : ¬(t < timeout)) :
    waitLoop polls name timeout poll_interval (fuel + 1) i t =
      .error (wait_timeout_error name timeout) := by
  rw [waitLoop, if_neg ht]

/-- Helper: whenever the polling loop returns a cloudspace, that
cloudspace was polled and is Ready and Healthy. -/
theorem waitLoop_ok (polls : Nat → Except RackspaceSpotAPIError CloudSpace)
    (name : String) (timeout poll_interval : Nat) :
    ∀ fuel i t cs, waitLoop polls name timeout poll_interval fuel i t = .ok cs →
      cs.phase = some "Ready" ∧ cs.health = some "Healthy" ∧
        ∃ j, polls j = .ok cs := by
  intro fuel
  induction fuel with
  | zero => intro i t cs h; simp [waitLoop] at h
  | succ n ih =>
    intro i t cs h
    by_cases ht : t < timeout
    · cases hp : polls i with
      | ok c =>
        rw [waitLoop_succ_ok polls name timeout poll_interval n i t c ht hp]
          at h
        by_cases hr : (c.phase == some "Ready" && c.health == some "Healthy") = true
        · rw [if_pos hr] at h
          cases h
          simp only [Bool.and_eq_true, beq_iff_eq] at hr
          exact ⟨hr.1, hr.2, i, hp⟩
        · rw [if_neg hr] at h
          by_cases hf : (c.phase == some "Failed") = true
          · rw [if_pos hf] at h; simp at h
          · rw [if_neg hf] at h; exact ih _ _ _ h
      | error e =>
        rw [waitLoop_succ_error polls name timeout poll_interval n i t e ht hp]
          at h
        by_cases h4 : (e.status_code == some 404) = true
        · rw [if_pos h4] at h; exact ih _ _ _ h
        · rw [if_neg h4] at h; simp at h
    · rw [waitLoop_succ_notime polls name timeout poll_interval n i t ht] at h
      simp at h

/-- Helper: on a nonterminal poll outcome inside the time budget, the loop
takes exactly one more iteration (sleeping `poll_interval`). -/
theorem waitLoop_step (polls : Nat → Except RackspaceSpotAPIError CloudSpace)
    (name : String) (timeout poll_interval fuel i t : Nat)
    (ht : t < timeout) (hn : nonterminalPoll (polls i) = true) :
    waitLoop polls name timeout poll_interval (fuel + 1) i t =
      waitLoop polls name timeout poll_interval fuel (i + 1)
        (t + poll_interval) := by
  cases hp : polls i with
  | ok c =>
    rw [waitLoop_succ_ok polls name timeout poll_interval fuel i t c ht hp]
    rw [hp] at hn
    simp only [nonterminalPoll, Bool.and_eq_true, Bool.not_eq_eq_eq_not,
      Bool.not_true] at hn
    rw [if_neg (by simp [hn.1]), if_neg (by simp [hn.2])]
  | error e =>
    rw [waitLoop_succ_error polls name timeout poll_interval fuel i t e ht hp]
    rw [hp] at hn
    simp only [nonterminalPoll] at hn
    rw [if_pos hn]

/-- Helper: when every poll outcome is nonterminal the loop always ends
in the timeout error. -/
theorem waitLoop_timeout
    (polls : Nat → Except RackspaceSpotAPIError CloudSpace)
    (name : String) (timeout poll_interval : Nat)
    (hall : ∀ j, nonterminalPoll (polls j) = true) :
    ∀ fuel i t, waitLoop polls name timeout poll_interval fuel i t =
      .error (wait_timeout_error name timeout) := by
  intro fuel
  induction fuel with
  | zero => intro i t; simp [waitLoop]
  | succ n ih =>
    intro i t
    by_cases ht : t < timeout
    · rw [waitLoop_step polls name timeout poll_interval n i t ht (hall i)]
      exact ih _ _
    · rw [waitLoop, if_neg ht]

/-- Helper: the first Failed observation, reached within the time budget,
makes the loop raise the deploy-failure error at once. -/
theorem waitLoop_firstFailed
    (polls : Nat → Except RackspaceSpotAPIError CloudSpace)
    (name : String) (timeout poll_interval : Nat) (cs : CloudSpace)
    (hfail : cs.phase = some "Failed") :
    ∀ k fuel i t, (∀ j, j < k → nonterminalPoll (polls (i + j)) = true) →
      polls (i + k) = .ok cs → t + k * poll_interval < timeout → k < fuel →
      waitLoop polls name timeout poll_interval fuel i t =
        .error (failed_deploy_error name) := by
  intro k
  induction k with
  | zero =>
    intro fuel i t _ hk ht hf
    cases fuel with
    | zero => omega
    | succ n =>
      rw [show i + 0 = i from rfl] at hk
      rw [waitLoop_succ_ok polls name timeout poll_interval n i t cs
            (by omega) hk]
      rw [hfail]
      rw [if_neg (by simp), if_pos (by simp)]
  | succ m ih =>
    intro fuel i t hpre hk ht hf
    cases fuel with
    | zero => omega
    | succ n =>
      have htl : t < timeout :=
        lt_of_le_of_lt (Nat.le_add_right t ((m + 1) * poll_interval)) ht
      rw [waitLoop_step polls name timeout poll_interval n i t htl
            (by simpa using hpre 0 (Nat.succ_pos m))]
      apply ih n (i + 1) (t + poll_interval)
      · intro j hj
        have := hpre (j + 1) (by omega)
        rwa [show i + (j + 1) = i + 1 + j by omega] at this
      · rwa [show i + 1 + m = i + (m + 1) by omega]
      · have : t + (m + 1) * poll_interval =
            t + poll_interval + m * poll_interval := by ring
        omega
      · omega

/-- C4: the readiness wait returns successfully only when a polled
cloudspace has phase Ready and health Healthy simultaneously; on a first
observation with phase Ready but health Degraded (and time budget left)
it does not return but performs the next polling iteration. -/
theorem wait_ready_requires_healthy
    (polls : Nat → Except RackspaceSpotAPIError CloudSpace)
    (name : String) (timeout poll_interval : Nat) :
    (∀ cs, wait_for_cloudspace_ready polls name timeout poll_interval = .ok cs →
       cs.phase = some "Ready" ∧ cs.health = some "Healthy" ∧
         ∃ j, polls j = .ok cs) ∧
    (∀ cs0, polls 0 = .ok cs0 → cs0.phase = some "Ready" →
       cs0.health = some "Degraded" → 0 < timeout →
       wait_for_cloudspace_ready polls name timeout poll_interval =
         waitLoop polls name timeout poll_interval (timeout - 1) 1
           poll_interval) := by
  constructor
  · intro cs h
    exact waitLoop_ok polls name timeout poll_interval timeout 0 0 cs h
  · intro cs0 hp hph hhe htpos
    obtain ⟨n, rfl⟩ : ∃ n, timeout = n + 1 := ⟨timeout - 1, by omega⟩
    unfold wait_for_cloudspace_ready
    rw [waitLoop_step polls name (n + 1) poll_interval n 0 0
          htpos (by simp [nonterminalPoll, hp, hph, hhe])]
    simp

/-- A cloudspace observed Ready but Degraded. -/
def csDegraded : CloudSpace :=
  { name := "c1", nspace := "n1", region := "r1",
    kubernetes_version := "1.31.1", phase := some "Ready",
    health := some "Degraded" }

/-- A cloudspace observed Ready and Healthy. -/
def csHealthy : CloudSpace :=
  { name := "c1", nspace := "n1", region := "r1",
    kubernetes_version := "1.31.1", phase := some "Ready",
    health := some "Healthy" }

/-- Poll oracle: Ready/Degraded first, Ready/Healthy from the second poll. -/
def pollsDeg : Nat → Except RackspaceSpotAPIError CloudSpace :=
  fun i => if i = 0 then .ok csDegraded else .ok csHealthy

/-- Witness for C4: with a Ready/Degraded first observation the wait keeps
polling and ends up returning the later Ready/Healthy record. -/
theorem wait_ready_requires_healthy_witness :
    wait_for_cloudspace_ready pollsDeg "c1" 3 1 = .ok csHealthy ∧
    (csHealthy.phase = some "Ready" ∧ csHealthy.health = some "Healthy" ∧
      ∃ j, pollsDeg j = .ok csHealthy) ∧
    wait_for_cloudspace_ready pollsDeg "c1" 3 1 =
      waitLoop pollsDeg "c1" 3 1 2 1 1 := by
  have hok : wait_for_cloudspace_ready pollsDeg "c1" 3 1 = .ok csHealthy := by
    decide
  have h := wait_ready_requires_healthy pollsDeg "c1" 3 1
  exact ⟨hok, h.1 csHealthy hok,
         h.2 csDegraded (by decide) rfl rfl (by decide)⟩

/-- C5: the readiness wait raises the deploy-failure error immediately -
independently of all later poll outcomes - the first time it observes
phase Failed within the time budget; a raised 404 (NotFoundError) is
swallowed and polling continues; and when every observation stays
nonterminal the wait ends in the timeout error. -/
theorem wait_failure_modes
    (polls : Nat → Except RackspaceSpotAPIError CloudSpace)
    (name : String) (timeout poll_interval : Nat)
    (hpoll : 1 ≤ poll_interval) :
    (∀ k cs, (∀ j, j < k → nonterminalPoll (polls j) = true) →
       polls k = .ok cs → cs.phase = some "Failed" →
       k * poll_interval < timeout →
       wait_for_cloudspace_ready polls name timeout poll_interval =
         .error (failed_deploy_error name)) ∧
    (∀ e, polls 0 = .error e → e.status_code = some 404 → 0 < timeout →
       wait_for_cloudspace_ready polls name timeout poll_interval =
         waitLoop polls name timeout poll_interval (timeout - 1) 1
           poll_interval) ∧
    ((∀ j, nonterminalPoll (polls j) = true) →
       wait_for_cloudspace_ready polls name timeout poll_interval =
         .error (wait_timeout_error name timeout)) := by
  refine ⟨?_, ?_, ?_⟩
  · intro k cs hpre hk hfail hlt
    have hkt : k < timeout := by
      have : k ≤ k * poll_interval := Nat.le_mul_of_pos_right k (by omega)
      omega
    exact waitLoop_firstFailed polls name timeout poll_interval cs hfail
      k timeout 0 0 (by simpa using hpre) (by simpa using hk)
      (by simpa using hlt) hkt
  · intro e hp h4 htpos
    obtain ⟨n, rfl⟩ : ∃ n, timeout = n + 1 := ⟨timeout - 1, by omega⟩
    unfold wait_for_cloudspace_ready
    rw [waitLoop_step polls name (n + 1) poll_interval n 0 0
          htpos (by simp [nonterminalPoll, hp, h4])]
    simp
  · intro hall
    exact waitLoop_timeout polls name timeout poll_interval hall timeout 0 0

/-- A cloudspace observed in phase Failed. -/
def csFailed : CloudSpace :=
  { name := "c1", nspace := "n1", region := "r1",
    kubernetes_version := "1.31.1", phase := some "Failed" }

/-- Poll oracle: a raised 404 first, then a Failed observation, then
Healthy observations that must never be reached. -/
def pollsFail : Nat → Except RackspaceSpotAPIError CloudSpace :=
  fun i =>
    if i = 0 then .error (http_error 404)
    else if i = 1 then .ok csFailed
    else .ok csHealthy

/-- Poll oracle: every poll raises 404. -/
def polls404 : Nat → Except RackspaceSpotAPIError CloudSpace :=
  fun _ => .error (http_error 404)

/-- Witness for C5: the 404 at poll 0 is swallowed, the Failed observation
at poll 1 raises the deploy-failure error immediately (the Healthy
observations after it are never reached), and an everlasting 404 stream
ends in the timeout error. -/
theorem wait_failure_modes_witness :
    wait_for_cloudspace_ready pollsFail "c1" 9 2 =
      .error (failed_deploy_error "c1") ∧
    wait_for_cloudspace_ready pollsFail "c1" 9 2 =
      waitLoop pollsFail "c1" 9 2 8 1 2 ∧
    wait_for_cloudspace_ready polls404 "c1" 3 1 =
      .error (wait_timeout_error "c1" 3) := by
  have h := wait_failure_modes pollsFail "c1" 9 2 (by decide)
  have h404 := wait_failure_modes polls404 "c1" 3 1 (by decide)
  refine ⟨h.1 1 csFailed ?_ (by decide) rfl (by decide),
          h.2.1 (http_error 404) rfl (by decide) (by decide),
          h404.2.2 ?_⟩
  · intro j hj
    have : j = 0 := by omega
    subst this
    decide
  · exact fun j => rfl

/-! ## Claims about the environment manager -/

/-- Unfolding equation of the spot-pool creation loop on a non-empty
configuration list. -/
theorem createSpotPools_cons (ns cn : String) (w : World) (c : SpotPoolSpec)
    (rest : List SpotPoolSpec) :
    createSpotPools ns cn w (c :: rest) =
      ((w_create_spot_pool w (spec_to_spot_pool ns cn c)).1 ::
         (createSpotPools ns cn
           (w_create_spot_pool w (spec_to_spot_pool ns cn c)).2.1 rest).1,
       (createSpotPools ns cn
         (w_create_spot_pool w (spec_to_spot_pool ns cn c)).2.1 rest).2.1,
       (w_create_spot_pool w (spec_to_spot_pool ns cn c)).2.2 ::
         (createSpotPools ns cn
           (w_create_spot_pool w (spec_to_spot_pool ns cn c)).2.1 rest).2.2) :=
  rfl

/-- Unfolding equation of the on-demand-pool creation loop on a non-empty
configuration list. -/
theorem createOnDemandPools_cons (ns cn : String) (w : World)
    (c : OnDemandPoolSpec) (rest : List OnDemandPoolSpec) :
    createOnDemandPools ns cn w (c :: rest) =
      ((w_create_od_pool w (spec_to_od_pool ns cn c)).1 ::
         (createOnDemandPools ns cn
           (w_create_od_pool w (spec_to_od_pool ns cn c)).2.1 rest).1,
       (createOnDemandPools ns cn
         (w_create_od_pool w (spec_to_od_pool ns cn c)).2.1 rest).2.1,
       (w_create_od_pool w (spec_to_od_pool ns cn c)).2.2 ::
         (createOnDemandPools ns cn
           (w_create_od_pool w (spec_to_od_pool ns cn c)).2.1 rest).2.2) :=
  rfl

/-- Helper: the spot-pool creation loop touches only the spot pools (one
appended per configuration entry) and the UUID counter. -/
theorem createSpotPools_world (ns cn : String) :
    ∀ (l : List SpotPoolSpec) (w : World),
      (createSpotPools ns cn w l).2.1.cloudspaces = w.cloudspaces ∧
      (createSpotPools ns cn w l).2.1.on_demand_pools = w.on_demand_pools ∧
      (createSpotPools ns cn w l).2.1.spot_pools.length =
        w.spot_pools.length + l.length ∧
      (createSpotPools ns cn w l).2.1.get_cloudspace_status =
        w.get_cloudspace_status ∧
      (createSpotPools ns cn w l).2.1.delete_cloudspace_status =
        w.delete_cloudspace_status := by
  intro l
  induction l with
  | nil => intro w; exact ⟨rfl, rfl, rfl, rfl, rfl⟩
  | cons c rest ih =>
    intro w
    simp only [createSpotPools_cons]
    refine ⟨?_, ?_, ?_, ?_, ?_⟩
    · rw [(ih _).1]; rfl
    · rw [(ih _).2.1]; rfl
    · rw [(ih _).2.2.1]
      have hsp : ((w_create_spot_pool w (spec_to_spot_pool ns cn c)).2.1).spot_pools.length =
          w.spot_pools.length + 1 := by
        simp [w_create_spot_pool]
      simp only [List.length_cons]
      omega
    · rw [(ih _).2.2.2.1]; rfl
    · rw [(ih _).2.2.2.2]; rfl

/-- Helper: the on-demand-pool creation loop touches only the on-demand
pools (one appended per configuration entry) and the UUID counter. -/
theorem createOnDemandPools_world (ns cn : String) :
    ∀ (l : List OnDemandPoolSpec) (w : World),
      (createOnDemandPools ns cn w l).2.1.cloudspaces = w.cloudspaces ∧
      (createOnDemandPools ns cn w l).2.1.spot_pools = w.spot_pools ∧
      (createOnDemandPools ns cn w l).2.1.on_demand_pools.length =
        w.on_demand_pools.length + l.length ∧
      (createOnDemandPools ns cn w l).2.1.get_cloudspace_status =
        w.get_cloudspace_status ∧
      (createOnDemandPools ns cn w l).2.1.delete_cloudspace_status =
        w.delete_cloudspace_status := by
  intro l
  induction l with
  | nil => intro w; exact ⟨rfl, rfl, rfl, rfl, rfl⟩
  | cons c rest ih =>
    intro w
    simp only [createOnDemandPools_cons]
    refine ⟨?_, ?_, ?_, ?_, ?_⟩
    · rw [(ih _).1]; rfl
    · rw [(ih _).2.1]; rfl
    · rw [(ih _).2.2.1]
      have hod : ((w_create_od_pool w (spec_to_od_pool ns cn c)).2.1).on_demand_pools.length =
          w.on_demand_pools.length + 1 := by
        simp [w_create_od_pool]
      simp only [List.length_cons]
      omega
    · rw [(ih _).2.2.2.1]; rfl
    · rw [(ih _).2.2.2.2]; rfl

/-- Helper: the calls issued by the spot-pool creation loop are exactly
one spot pool create per configuration entry. -/
theorem createSpotPools_trace (ns cn : String) :
    ∀ (l : List SpotPoolSpec) (w : World),
      (createSpotPools ns cn w l).2.2.countP isCreateSpotPool = l.length ∧
      (createSpotPools ns cn w l).2.2.countP isCreateCloudspace = 0 ∧
      (createSpotPools ns cn w l).2.2.countP isCreateOnDemandPool = 0 := by
  intro l
  induction l with
  | nil => intro w; exact ⟨rfl, rfl, rfl⟩
  | cons c rest ih =>
    intro w
    simp only [createSpotPools_cons]
    have hcall : (w_create_spot_pool w (spec_to_spot_pool ns cn c)).2.2 =
        ApiCall.createSpotPool ns
          (create_spot_node_pool (uuid_name w.fresh)
            (spec_to_spot_pool ns cn c)).2.name := rfl
    refine ⟨?_, ?_, ?_⟩ <;>
      simp [List.countP_cons, hcall, isCreateSpotPool, isCreateCloudspace,
            isCreateOnDemandPool, (ih _).1, (ih _).2.1, (ih _).2.2]

/-- Helper: the calls issued by the on-demand-pool creation loop are
exactly one on-demand pool create per configuration entry. -/
theorem createOnDemandPools_trace (ns cn : String) :
    ∀ (l : List OnDemandPoolSpec) (w : World),
      (createOnDemandPools ns cn w l).2.2.countP isCreateOnDemandPool =
        l.length ∧
      (createOnDemandPools ns cn w l).2.2.countP isCreateCloudspace = 0 ∧
      (createOnDemandPools ns cn w l).2.2.countP isCreateSpotPool = 0 := by
  intro l
  induction l with
  | nil => intro w; exact ⟨rfl, rfl, rfl⟩
  | cons c rest ih =>
    intro w
    simp only [createOnDemandPools_cons]
    have hcall : (w_create_od_pool w (spec_to_od_pool ns cn c)).2.2 =
        ApiCall.createOnDemandPool ns
          (create_on_demand_node_pool (uuid_name w.fresh)
            (spec_to_od_pool ns cn c)).2.name := rfl
    refine ⟨?_, ?_, ?_⟩ <;>
      simp [List.countP_cons, hcall, isCreateSpotPool, isCreateCloudspace,
            isCreateOnDemandPool, (ih _).1, (ih _).2.1, (ih _).2.2]

/-- Helper: `find?` on a singleton whose element matches. -/
theorem find?_singleton_of_pos {α : Type} (p : α → Bool) (a : α)
    (h : p a = true) : [a].find? p = some a := by
  simp [List.find?, h]

/-- Helper: `find?` skips a prefix in which nothing matches. -/
theorem find?_append_of_none {α : Type} (p : α → Bool) :
    ∀ (l l2 : List α), l.find? p = none → (l ++ l2).find? p = l2.find? p := by
  intro l
  induction l with
  | nil => intro l2 _; rfl
  | cons a rest ih =>
    intro l2 h
    cases hpa : p a with
    | true => rw [List.find?_cons_of_pos _ hpa] at h; cases h
    | false =>
      rw [List.find?_cons_of_neg _ (by simp [hpa])] at h
      rw [List.cons_append, List.find?_cons_of_neg _ (by simp [hpa])]
      exact ih l2 h

/-- Unfolding equation of `create_environment` when the initial get
fails (for any reason): a cloudspace create is issued. -/
theorem create_environment_of_get_error (w : World)
    (cloudspace_name ns region kv : String) (sp : List SpotPoolSpec)
    (od : List OnDemandPoolSpec) (e : RackspaceSpotAPIError)
    (hget : w_get_cloudspace w ns cloudspace_name = .error e) :
    create_environment w cloudspace_name ns region kv sp od =
      (let created := create_cloudspace
         { name := cloudspace_name, nspace := ns, region := region,
           kubernetes_version := kv }
       let w' : World := { w with cloudspaces := w.cloudspaces ++ [created] }
       let s := createSpotPools ns cloudspace_name w' sp
       let o := createOnDemandPools ns cloudspace_name s.2.1 od
       (⟨created, s.1, o.1⟩, o.2.1,
        .getCloudspace ns cloudspace_name ::
          .createCloudspace ns cloudspace_name :: (s.2.2 ++ o.2.2))) := by
  unfold create_environment
  rw [hget]
  rfl

/-- Unfolding equation of `create_environment` when the initial get
returns a cloudspace: it is reused and no cloudspace create is issued. -/
theorem create_environment_of_get_ok (w : World)
    (cloudspace_name ns region kv : String) (sp : List SpotPoolSpec)
    (od : List OnDemandPoolSpec) (c : CloudSpace)
    (hget : w_get_cloudspace w ns cloudspace_name = .ok c) :
    create_environment w cloudspace_name ns region kv sp od =
      (let s := createSpotPools ns cloudspace_name w sp
       let o := createOnDemandPools ns cloudspace_name s.2.1 od
       (⟨c, s.1, o.1⟩, o.2.1,
        .getCloudspace ns cloudspace_name :: (s.2.2 ++ o.2.2))) := by
  unfold create_environment
  rw [hget]
  rfl

/-- Helper: spot-pool creation leaves the cloudspaces untouched. -/
theorem createSpotPools_cloudspaces (ns cn : String) (l : List SpotPoolSpec)
    (w : World) : (createSpotPools ns cn w l).2.1.cloudspaces = w.cloudspaces :=
  (createSpotPools_world ns cn l w).1

/-- Helper: spot-pool creation leaves the on-demand pools untouched. -/
theorem createSpotPools_ods (ns cn : String) (l : List SpotPoolSpec)
    (w : World) :
    (createSpotPools ns cn w l).2.1.on_demand_pools = w.on_demand_pools :=
  (createSpotPools_world ns cn l w).2.1

/-- Helper: spot-pool creation appends one pool per entry. -/
theorem createSpotPools_len (ns cn : String) (l : List SpotPoolSpec)
    (w : World) :
    (createSpotPools ns cn w l).2.1.spot_pools.length =
      w.spot_pools.length + l.length :=
  (createSpotPools_world ns cn l w).2.2.1

/-- Helper: spot-pool creation preserves the get fault injection. -/
theorem createSpotPools_getstatus (ns cn : String) (l : List SpotPoolSpec)
    (w : World) :
    (createSpotPools ns cn w l).2.1.get_cloudspace_status =
      w.get_cloudspace_status :=
  (createSpotPools_world ns cn l w).2.2.2.1

/-- Helper: spot-pool creation preserves the delete fault injection. -/
theorem createSpotPools_delstatus (ns cn : String) (l : List SpotPoolSpec)
    (w : World) :
    (createSpotPools ns cn w l).2.1.delete_cloudspace_status =
      w.delete_cloudspace_status :=
  (createSpotPools_world ns cn l w).2.2.2.2

/-- Helper: on-demand-pool creation leaves the cloudspaces untouched. -/
theorem createOnDemandPools_cloudspaces (ns cn : String)
    (l : List OnDemandPoolSpec) (w : World) :
    (createOnDemandPools ns cn w l).2.1.cloudspaces = w.cloudspaces :=
  (createOnDemandPools_world ns cn l w).1

/-- Helper: on-demand-pool creation leaves the spot pools untouched. -/
theorem createOnDemandPools_spots (ns cn : String)
    (l : List OnDemandPoolSpec) (w : World) :
    (createOnDemandPools ns cn w l).2.1.spot_pools = w.spot_pools :=
  (createOnDemandPools_world ns cn l w).2.1

/-- Helper: on-demand-pool creation appends one pool per entry. -/
theorem createOnDemandPools_len (ns cn : String) (l : List OnDemandPoolSpec)
    (w : World) :
    (createOnDemandPools ns cn w l).2.1.on_demand_pools.length =
      w.on_demand_pools.length + l.length :=
  (createOnDemandPools_world ns cn l w).2.2.1

/-- Helper: on-demand-pool creation preserves the get fault injection. -/
theorem createOnDemandPools_getstatus (ns cn : String)
    (l : List OnDemandPoolSpec) (w : World) :
    (createOnDemandPools ns cn w l).2.1.get_cloudspace_status =
      w.get_cloudspace_status :=
  (createOnDemandPools_world ns cn l w).2.2.2.1

/-- Helper: on-demand-pool creation preserves the delete fault injection. -/
theorem createOnDemandPools_delstatus (ns cn : String)
    (l : List OnDemandPoolSpec) (w : World) :
    (createOnDemandPools ns cn w l).2.1.delete_cloudspace_status =
      w.delete_cloudspace_status :=
  (createOnDemandPools_world ns cn l w).2.2.2.2

/-- Helper: spot-loop trace counts, as single equations. -/
theorem createSpotPools_count_spot (ns cn : String) (l : List SpotPoolSpec)
    (w : World) :
    (createSpotPools ns cn w l).2.2.countP isCreateSpotPool = l.length :=
  (createSpotPools_trace ns cn l w).1

/-- Helper: the spot loop issues no cloudspace create. -/
theorem createSpotPools_count_cs (ns cn : String) (l : List SpotPoolSpec)
    (w : World) :
    (createSpotPools ns cn w l).2.2.countP isCreateCloudspace = 0 :=
  (createSpotPools_trace ns cn l w).2.1

/-- Helper: the spot loop issues no on-demand pool create. -/
theorem createSpotPools_count_od (ns cn : String) (l : List SpotPoolSpec)
    (w : World) :
    (createSpotPools ns cn w l).2.2.countP isCreateOnDemandPool = 0 :=
  (createSpotPools_trace ns cn l w).2.2

/-- Helper: on-demand-loop trace counts, as single equations. -/
theorem createOnDemandPools_count_od (ns cn : String)
    (l : List OnDemandPoolSpec) (w : World) :
    (createOnDemandPools ns cn w l).2.2.countP isCreateOnDemandPool =
      l.length :=
  (createOnDemandPools_trace ns cn l w).1

/-- Helper: the on-demand loop issues no cloudspace create. -/
theorem createOnDemandPools_count_cs (ns cn : String)
    (l : List OnDemandPoolSpec) (w : World) :
    (createOnDemandPools ns cn w l).2.2.countP isCreateCloudspace = 0 :=
  (createOnDemandPools_trace ns cn l w).2.1

/-- Helper: the on-demand loop issues no spot pool create. -/
theorem createOnDemandPools_count_spot (ns cn : String)
    (l : List OnDemandPoolSpec) (w : World) :
    (createOnDemandPools ns cn w l).2.2.countP isCreateSpotPool = 0 :=
  (createOnDemandPools_trace ns cn l w).2.2

/-- C3: invoking `create_environment` twice with the same cloudspace name
and namespace (starting from a world where the cloudspace is absent)
issues exactly one cloudspace create in the first run and none in the
second - the existing cloudspace is reused unmodified and the second
run returns the very same cloudspace record - while a fresh pool create
call is issued for every entry of `spot_pools` and `on_demand_pools` in
BOTH runs, so the stored pools are duplicated rather than deduplicated
(their count grows by the spec-list length on every invocation). -/
theorem create_environment_idempotent_cloudspace
    (w : World) (name ns region kv : String)
    (sp : List SpotPoolSpec) (od : List OnDemandPoolSpec)
    (hfault : w.get_cloudspace_status = none)
    (habsent : w.cloudspaces.find?
      (fun c => c.nspace == ns && c.name == name) = none)
    (r1 : EnvResult) (w1 : World) (t1 : List ApiCall)
    (h1 : create_environment w name ns region kv sp od = (r1, w1, t1))
    (r2 : EnvResult) (w2 : World) (t2 : List ApiCall)
    (h2 : create_environment w1 name ns region kv sp od = (r2, w2, t2)) :
    t1.countP isCreateCloudspace = 1 ∧
    t2.countP isCreateCloudspace = 0 ∧
    t1.countP isCreateSpotPool = sp.length ∧
    t2.countP isCreateSpotPool = sp.length ∧
    t1.countP isCreateOnDemandPool = od.length ∧
    t2.countP isCreateOnDemandPool = od.length ∧
    w2.cloudspaces = w1.cloudspaces ∧
    r2.cloudspace = r1.cloudspace ∧
    w2.spot_pools.length = w.spot_pools.length + 2 * sp.length ∧
    w2.on_demand_pools.length = w.on_demand_pools.length + 2 * od.length := by
  have hget1 : w_get_cloudspace w ns name = .error (http_error 404) := by
    simp [w_get_cloudspace, hfault, habsent]
  rw [create_environment_of_get_error w name ns region kv sp od _ hget1] at h1
  simp only [Prod.mk.injEq] at h1
  obtain ⟨hr1, hw1, ht1⟩ := h1
  subst ht1
  have hW1c : w1.cloudspaces =
      w.cloudspaces ++ [create_cloudspace
        { name := name, nspace := ns, region := region,
          kubernetes_version := kv }] := by
    rw [← hw1, createOnDemandPools_cloudspaces, createSpotPools_cloudspaces]
  have hW1s : w1.get_cloudspace_status = none := by
    rw [← hw1, createOnDemandPools_getstatus, createSpotPools_getstatus]
    exact hfault
  have hpred : ((create_cloudspace
        { name := name, nspace := ns, region := region,
          kubernetes_version := kv } : CloudSpace).nspace == ns &&
      (create_cloudspace
        { name := name, nspace := ns, region := region,
          kubernetes_version := kv } : CloudSpace).name == name) = true := by
    simp [create_cloudspace, parse_cloudspace, cloudspace_create_payload]
  have hfind2 : w1.cloudspaces.find?
      (fun c => c.nspace == ns && c.name == name) =
      some (create_cloudspace
        { name := name, nspace := ns, region := region,
          kubernetes_version := kv }) := by
    rw [hW1c, find?_append_of_none _ _ _ habsent,
        find?_singleton_of_pos (fun c => c.nspace == ns && c.name == name)
          (create_cloudspace
            { name := name, nspace := ns, region := region,
              kubernetes_version := kv }) hpred]
  have hget2 : w_get_cloudspace w1 ns name =
      .ok (create_cloudspace
        { name := name, nspace := ns, region := region,
          kubernetes_version := kv }) := by
    simp [w_get_cloudspace, hW1s, hfind2]
  rw [create_environment_of_get_ok w1 name ns region kv sp od _ hget2] at h2
  simp only [Prod.mk.injEq] at h2
  obtain ⟨hr2, hw2, ht2⟩ := h2
  subst ht2
  have hW1spotlen : w1.spot_pools.length =
      w.spot_pools.length + sp.length := by
    rw [← hw1, createOnDemandPools_spots, createSpotPools_len]
  have hW1odlen : w1.on_demand_pools.length =
      w.on_demand_pools.length + od.length := by
    rw [← hw1, createOnDemandPools_len, createSpotPools_ods]
  refine ⟨?_, ?_, ?_, ?_, ?_, ?_, ?_, ?_, ?_, ?_⟩
  · simp [List.countP_cons, List.countP_append, isCreateCloudspace,
          createSpotPools_count_cs, createOnDemandPools_count_cs]
  · simp [List.countP_cons, List.countP_append, isCreateCloudspace,
          createSpotPools_count_cs, createOnDemandPools_count_cs]
  · simp [List.countP_cons, List.countP_append, isCreateSpotPool,
          createSpotPools_count_spot, createOnDemandPools_count_spot]
  · simp [List.countP_cons, List.countP_append, isCreateSpotPool,
          createSpotPools_count_spot, createOnDemandPools_count_spot]
  · simp [List.countP_cons, List.countP_append, isCreateOnDemandPool,
          createSpotPools_count_od, createOnDemandPools_count_od]
  · simp [List.countP_cons, List.countP_append, isCreateOnDemandPool,
          createSpotPools_count_od, createOnDemandPools_count_od]
  · rw [← hw2, createOnDemandPools_cloudspaces, createSpotPools_cloudspaces]
  · rw [← hr2, ← hr1]
  · rw [← hw2, createOnDemandPools_spots, createSpotPools_len, hW1spotlen]
    omega
  · rw [← hw2, createOnDemandPools_len, createSpotPools_ods, hW1odlen]
    omega


/-- A spot pool configuration entry used in concrete manager scenarios. -/
def c3spec : SpotPoolSpec :=
  { name := "p1", server_class := "gp", desired := 1, bid_price := "0.5" }

/-- An on-demand pool configuration entry used in concrete manager
scenarios. -/
def c3odspec : OnDemandPoolSpec :=
  { name := "q1", server_class := "gp", desired := 1 }

/-- The empty world used in concrete manager scenarios. -/
def c3w : World := {}

/-- Witness for C3 at a concrete double invocation from an empty world:
one cloudspace create in the first run, none in the second, and the spot
pool store ends with two (duplicated) pools. -/
theorem create_environment_idempotent_cloudspace_witness :
    (create_environment c3w "c1" "n1" "r1" "1.31.1" [c3spec]
      [c3odspec]).2.2.countP isCreateCloudspace = 1 ∧
    (create_environment
      (create_environment c3w "c1" "n1" "r1" "1.31.1" [c3spec]
        [c3odspec]).2.1
      "c1" "n1" "r1" "1.31.1" [c3spec] [c3odspec]).2.2.countP
        isCreateCloudspace = 0 ∧
    (create_environment
      (create_environment c3w "c1" "n1" "r1" "1.31.1" [c3spec]
        [c3odspec]).2.1
      "c1" "n1" "r1" "1.31.1" [c3spec] [c3odspec]).2.1.spot_pools.length =
        2 := by
  have h := create_environment_idempotent_cloudspace c3w "c1" "n1" "r1"
    "1.31.1" [c3spec] [c3odspec] rfl rfl _ _ _ rfl _ _ _ rfl
  exact ⟨h.1, h.2.1, by decide⟩

/-- A world whose server answers 500 to every `get_cloudspace`. -/
def c7w : World := { get_cloudspace_status := some 500 }

/-- C7 counterexample: with the initial get failing with a generic 500
APIError (not a 404 NotFoundError), `create_environment` swallows the
failure and issues a cloudspace create call instead of propagating the
error to the caller - the broad exception handler in `manager.py` line 57
catches every failure, not only NotFound. -/
theorem create_environment_swallow_counterexample :
    w_get_cloudspace c7w "n1" "c1" = .error (http_error 500) ∧
    (create_environment c7w "c1" "n1" "r1" "1.31.1" [] []).2.2 =
      [.getCloudspace "n1" "c1", .createCloudspace "n1" "c1"] := by
  exact ⟨rfl, rfl⟩

/-- C7 amended: during cloudspace acquisition, ANY failure of the initial
get - a 404 NotFound or any other error such as a 5xx APIError - is
swallowed by `create_environment` and triggers a cloudspace create; get
failures never propagate out of `create_environment`. -/
theorem create_environment_swallows_any_get_failure
    (w : World) (name ns region kv : String) (sp : List SpotPoolSpec)
    (od : List OnDemandPoolSpec) (s : Nat)
    (hfault : w.get_cloudspace_status = some s) :
    (create_environment w name ns region kv sp od).2.2.countP
      isCreateCloudspace = 1 ∧
    (create_environment w name ns region kv sp od).2.1.cloudspaces =
      w.cloudspaces ++ [create_cloudspace
        { name := name, nspace := ns, region := region,
          kubernetes_version := kv }] ∧
    (create_environment w name ns region kv sp od).1.cloudspace =
      create_cloudspace
        { name := name, nspace := ns, region := region,
          kubernetes_version := kv } := by
  have hget : w_get_cloudspace w ns name = .error (http_error s) := by
    simp [w_get_cloudspace, hfault]
  rw [create_environment_of_get_error w name ns region kv sp od _ hget]
  refine ⟨?_, ?_, ?_⟩
  · simp [List.countP_cons, List.countP_append, isCreateCloudspace,
          createSpotPools_count_cs, createOnDemandPools_count_cs]
  · simp [createOnDemandPools_cloudspaces, createSpotPools_cloudspaces]
  · rfl

/-- Witness for the amended C7 at the concrete 500-faulted world. -/
theorem create_environment_swallows_any_get_failure_witness :
    c7w.get_cloudspace_status = some 500 ∧
    (create_environment c7w "c1" "n1" "r1" "1.31.1" [] []).2.2.countP
      isCreateCloudspace = 1 ∧
    (create_environment c7w "c1" "n1" "r1" "1.31.1" [] []).2.1.cloudspaces =
      c7w.cloudspaces ++ [create_cloudspace
        { name := "c1", nspace := "n1", region := "r1",
          kubernetes_version := "1.31.1" }] := by
  have h := create_environment_swallows_any_get_failure c7w "c1" "n1" "r1"
    "1.31.1" [] [] 500 rfl
  exact ⟨rfl, h.1, h.2.1⟩

/-! ## Cleanup: list-level helpers -/

/-- Helper: extracting a fixed target from a list whose names are
pairwise distinct yields at most one hit. -/
theorem filterMap_const_target {α : Type} (nameOf : α → String)
    (target : String) :
    ∀ l : List α, (l.map nameOf).Nodup →
      (l.filterMap fun a => if nameOf a == target then some target
         else none) =
        (if l.any (fun a => nameOf a == target) then [target] else []) := by
  intro l
  induction l with
  | nil => intro _; rfl
  | cons a rest ih =>
    intro hnd
    rw [List.map_cons, List.nodup_cons] at hnd
    cases ht : (nameOf a == target) with
    | true =>
      rw [List.filterMap_cons_some (by rw [ht]; rfl)]
      have hrest : (rest.filterMap fun b =>
          if nameOf b == target then some target else none) = [] := by
        rw [List.filterMap_eq_nil_iff]
        intro b hb
        have hbt : (nameOf b == target) = false := by
          have hne : nameOf b ≠ target := by
            intro he
            apply hnd.1
            have hat : nameOf a = target := beq_iff_eq.mp ht
            rw [hat, ← he]
            exact List.mem_map_of_mem nameOf hb
          simp [hne]
        rw [hbt]; rfl
      rw [hrest]
      have hany : ((a :: rest).any fun b => nameOf b == target) = true := by
        simp [List.any_cons, ht]
      rw [hany]; rfl
    | false =>
      rw [List.filterMap_cons_none (by rw [ht]; rfl), ih hnd.2]
      have hany : ((a :: rest).any fun b => nameOf b == target) =
          (rest.any fun b => nameOf b == target) := by
        simp [List.any_cons, ht]
      rw [hany]

/-- Helper: membership in a name extraction. -/
theorem mem_filterMap_name_iff {α : Type} (nameOf : α → String)
    (c : α → Bool) (l : List α) (x : String) :
    (x ∈ l.filterMap fun a => if c a then some (nameOf a) else none) ↔
      ∃ a, a ∈ l ∧ nameOf a = x ∧ c a = true := by
  rw [List.mem_filterMap]
  constructor
  · rintro ⟨a, ha, hfa⟩
    cases hc : c a with
    | true => rw [hc, if_pos rfl] at hfa; exact ⟨a, ha, Option.some.inj hfa, hc⟩
    | false => rw [hc] at hfa; simp at hfa
  · rintro ⟨a, ha, hn, hc⟩
    exact ⟨a, ha, by rw [hc, if_pos rfl, hn]⟩

/-- Helper: a name extraction from a list with pairwise-distinct names
has pairwise-distinct entries. -/
theorem filterMap_name_nodup {α : Type} (nameOf : α → String) (c : α → Bool) :
    ∀ l : List α, (l.map nameOf).Nodup →
      (l.filterMap fun a => if c a then some (nameOf a) else none).Nodup := by
  intro l
  induction l with
  | nil => intro _; exact List.nodup_nil
  | cons a rest ih =>
    intro hnd
    rw [List.map_cons, List.nodup_cons] at hnd
    cases hc : c a with
    | true =>
      rw [List.filterMap_cons_some (by rw [hc]; rfl)]
      rw [List.nodup_cons]
      refine ⟨?_, ih hnd.2⟩
      intro hmem
      obtain ⟨b, hb, hbn, _⟩ := (mem_filterMap_name_iff nameOf c rest
        (nameOf a)).mp hmem
      exact hnd.1 (hbn ▸ List.mem_map_of_mem nameOf hb)
    | false =>
      rw [List.filterMap_cons_none (by rw [hc]; rfl)]
      exact ih hnd.2

/-- Helper: `contains` on strings decides membership. -/
theorem contains_iff_mem_str (l : List String) (x : String) :
    l.contains x = true ↔ x ∈ l := by
  induction l with
  | nil => simp
  | cons a rest ih =>
    rw [List.contains_cons, List.mem_cons, Bool.or_eq_true, beq_iff_eq, ih]

/-- Helper: the nested spot-pool cleanup loops, under snapshot names
pairwise distinct, delete one name per resource-set entry found in the
snapshot. -/
theorem spot_delete_names_eq (snap : List SpotNodePool)
    (hsnd : (snap.map SpotNodePool.name).Nodup) :
    ∀ users : List SpotNodePool,
      spot_delete_names users snap =
        users.filterMap (fun u =>
          if snap.any (fun a => a.name == u.name) then some u.name
          else none) := by
  intro users
  induction users with
  | nil => rfl
  | cons u rest ih =>
    show (u :: rest).flatMap _ = _
    rw [List.flatMap_cons,
        filterMap_const_target SpotNodePool.name u.name snap hsnd]
    cases hc : snap.any (fun a => a.name == u.name) with
    | true =>
      rw [List.filterMap_cons_some (by rw [hc]; rfl)]
      rw [show spot_delete_names rest snap = rest.flatMap _ from rfl] at ih
      rw [ih]; rfl
    | false =>
      rw [List.filterMap_cons_none (by rw [hc]; rfl)]
      rw [show spot_delete_names rest snap = rest.flatMap _ from rfl] at ih
      rw [ih]; rfl

/-- Helper: as `spot_delete_names_eq`, for the on-demand loops. -/
theorem od_delete_names_eq (snap : List OnDemandNodePool)
    (hsnd : (snap.map OnDemandNodePool.name).Nodup) :
    ∀ users : List OnDemandNodePool,
      od_delete_names users snap =
        users.filterMap (fun u =>
          if snap.any (fun a => a.name == u.name) then some u.name
          else none) := by
  intro users
  induction users with
  | nil => rfl
  | cons u rest ih =>
    show (u :: rest).flatMap _ = _
    rw [List.flatMap_cons,
        filterMap_const_target OnDemandNodePool.name u.name snap hsnd]
    cases hc : snap.any (fun a => a.name == u.name) with
    | true =>
      rw [List.filterMap_cons_some (by rw [hc]; rfl)]
      rw [show od_delete_names rest snap = rest.flatMap _ from rfl] at ih
      rw [ih]; rfl
    | false =>
      rw [List.filterMap_cons_none (by rw [hc]; rfl)]
      rw [show od_delete_names rest snap = rest.flatMap _ from rfl] at ih
      rw [ih]; rfl

/-- Unfolding equation of `runSpotDeletes` on a successful delete. -/
theorem runSpotDeletes_cons_ok (ns n : String) (rest : List String)
    (w w' : World) (h : w_delete_spot_pool w ns n = .ok w') :
    runSpotDeletes ns w (n :: rest) =
      ((runSpotDeletes ns w' rest).1, (runSpotDeletes ns w' rest).2.1,
       .deleteSpotPool ns n :: (runSpotDeletes ns w' rest).2.2) := by
  rw [runSpotDeletes, h]

/-- Unfolding equation of `runOdDeletes` on a successful delete. -/
theorem runOdDeletes_cons_ok (ns n : String) (rest : List String)
    (w w' : World) (h : w_delete_od_pool w ns n = .ok w') :
    runOdDeletes ns w (n :: rest) =
      ((runOdDeletes ns w' rest).1, (runOdDeletes ns w' rest).2.1,
       .deleteOnDemandPool ns n :: (runOdDeletes ns w' rest).2.2) := by
  rw [runOdDeletes, h]

/-- Unfolding equation of `runCsDeletes` on a successful delete. -/
theorem runCsDeletes_cons_ok (ns n : String) (rest : List String)
    (w w' : World) (h : w_delete_cloudspace w ns n = .ok w') :
    runCsDeletes ns w (n :: rest) =
      ((runCsDeletes ns w' rest).1, (runCsDeletes ns w' rest).2.1,
       .deleteCloudspace ns n :: (runCsDeletes ns w' rest).2.2) := by
  rw [runCsDeletes, h]

/-- Unfolding equation of `runCsDeletes` on a failing delete: the error is
recorded and no further call is issued. -/
theorem runCsDeletes_cons_error (ns n : String) (rest : List String)
    (w : World) (e : RackspaceSpotAPIError)
    (h : w_delete_cloudspace w ns n = .error e) :
    runCsDeletes ns w (n :: rest) = (some e, w, [.deleteCloudspace ns n]) := by
  rw [runCsDeletes, h]

/-- Helper: running the spot-pool deletes over pairwise-distinct names
that all exist in the world succeeds, removes exactly the pools of the
namespace bearing those names, and issues one delete call per name. -/
theorem runSpotDeletes_ok (ns : String) :
    ∀ (names : List String) (w : World), names.Nodup →
      (∀ n ∈ names, ∃ p, p ∈ w.spot_pools ∧ p.nspace = ns ∧ p.name = n) →
      (runSpotDeletes ns w names).1 = none ∧
      (runSpotDeletes ns w names).2.1 =
        { w with spot_pools :=
            (w.spot_pools.filter
              (fun p => !(p.nspace == ns &&
                names.contains p.name))) } ∧
      (runSpotDeletes ns w names).2.2 =
        names.map (ApiCall.deleteSpotPool ns) := by
  intro names
  induction names with
  | nil =>
    intro w _ _
    refine ⟨rfl, ?_, rfl⟩
    rw [List.filter_eq_self.mpr (fun p _ => by simp)]
    rfl
  | cons n rest ih =>
    intro w hnd hex
    rw [List.nodup_cons] at hnd
    have hanyn : w.spot_pools.any
        (fun p => p.nspace == ns && p.name == n) = true := by
      obtain ⟨p, hp, h1, h2⟩ := hex n (by simp)
      exact List.any_eq_true.mpr ⟨p, hp, by simp [h1, h2]⟩
    have hdel : w_delete_spot_pool w ns n =
        .ok { w with spot_pools :=
          (w.spot_pools.filter
            (fun p => !(p.nspace == ns && p.name == n))) } := by
      simp [w_delete_spot_pool, hanyn]
    rw [runSpotDeletes_cons_ok ns n rest w _ hdel]
    have hex' : ∀ m ∈ rest, ∃ p,
        p ∈ (w.spot_pools.filter
          (fun p => !(p.nspace == ns && p.name == n))) ∧
        p.nspace = ns ∧ p.name = m := by
      intro m hm
      obtain ⟨p, hp, h1, h2⟩ := hex m (by simp [hm])
      have hmn : m ≠ n := fun he => hnd.1 (he ▸ hm)
      refine ⟨p, List.mem_filter.mpr ⟨hp, ?_⟩, h1, h2⟩
      have : (p.name == n) = false := by
        rw [h2]; exact beq_eq_false_iff_ne.mpr hmn
      simp [this]
    have hrun := ih { w with spot_pools :=
      (w.spot_pools.filter
        (fun p => !(p.nspace == ns && p.name == n))) } hnd.2 hex'
    refine ⟨hrun.1, ?_, ?_⟩
    · rw [hrun.2.1]
      simp only [List.filter_filter]
      have hflt : (w.spot_pools.filter
          (fun p => (!(p.nspace == ns && rest.contains p.name)) &&
            (!(p.nspace == ns && p.name == n)))) =
          (w.spot_pools.filter
            (fun p => !(p.nspace == ns && (n :: rest).contains p.name))) := by
        apply List.filter_congr
        intro p _
        by_cases hns : p.nspace = ns <;> by_cases hpn : p.name = n <;>
          simp [List.contains_cons, hns, hpn]
      rw [hflt]
    · rw [hrun.2.2]; rfl

/-- Helper: as `runSpotDeletes_ok`, for the on-demand deletes. -/
theorem runOdDeletes_ok (ns : String) :
    ∀ (names : List String) (w : World), names.Nodup →
      (∀ n ∈ names, ∃ p, p ∈ w.on_demand_pools ∧ p.nspace = ns ∧
        p.name = n) →
      (runOdDeletes ns w names).1 = none ∧
      (runOdDeletes ns w names).2.1 =
        { w with on_demand_pools :=
            (w.on_demand_pools.filter
              (fun p => !(p.nspace == ns &&
                names.contains p.name))) } ∧
      (runOdDeletes ns w names).2.2 =
        names.map (ApiCall.deleteOnDemandPool ns) := by
  intro names
  induction names with
  | nil =>
    intro w _ _
    refine ⟨rfl, ?_, rfl⟩
    rw [List.filter_eq_self.mpr (fun p _ => by simp)]
    rfl
  | cons n rest ih =>
    intro w hnd hex
    rw [List.nodup_cons] at hnd
    have hanyn : w.on_demand_pools.any
        (fun p => p.nspace == ns && p.name == n) = true := by
      obtain ⟨p, hp, h1, h2⟩ := hex n (by simp)
      exact List.any_eq_true.mpr ⟨p, hp, by simp [h1, h2]⟩
    have hdel : w_delete_od_pool w ns n =
        .ok { w with on_demand_pools :=
          (w.on_demand_pools.filter
            (fun p => !(p.nspace == ns && p.name == n))) } := by
      simp [w_delete_od_pool, hanyn]
    rw [runOdDeletes_cons_ok ns n rest w _ hdel]
    have hex' : ∀ m ∈ rest, ∃ p,
        p ∈ (w.on_demand_pools.filter
          (fun p => !(p.nspace == ns && p.name == n))) ∧
        p.nspace = ns ∧ p.name = m := by
      intro m hm
      obtain ⟨p, hp, h1, h2⟩ := hex m (by simp [hm])
      have hmn : m ≠ n := fun he => hnd.1 (he ▸ hm)
      refine ⟨p, List.mem_filter.mpr ⟨hp, ?_⟩, h1, h2⟩
      have : (p.name == n) = false := by
        rw [h2]; exact beq_eq_false_iff_ne.mpr hmn
      simp [this]
    have hrun := ih { w with on_demand_pools :=
      (w.on_demand_pools.filter
        (fun p => !(p.nspace == ns && p.name == n))) } hnd.2 hex'
    refine ⟨hrun.1, ?_, ?_⟩
    · rw [hrun.2.1]
      simp only [List.filter_filter]
      have hflt : (w.on_demand_pools.filter
          (fun p => (!(p.nspace == ns && rest.contains p.name)) &&
            (!(p.nspace == ns && p.name == n)))) =
          (w.on_demand_pools.filter
            (fun p => !(p.nspace == ns && (n :: rest).contains p.name))) := by
        apply List.filter_congr
        intro p _
        by_cases hns : p.nspace = ns <;> by_cases hpn : p.name = n <;>
          simp [List.contains_cons, hns, hpn]
      rw [hflt]
    · rw [hrun.2.2]; rfl

/-- Helper: as `runSpotDeletes_ok`, for the cloudspace deletes (with no
fault injected on delete). -/
theorem runCsDeletes_ok (ns : String) :
    ∀ (names : List String) (w : World),
      w.delete_cloudspace_status = none → names.Nodup →
      (∀ n ∈ names, ∃ c, c ∈ w.cloudspaces ∧ c.nspace = ns ∧ c.name = n) →
      (runCsDeletes ns w names).1 = none ∧
      (runCsDeletes ns w names).2.1 =
        { w with cloudspaces :=
            (w.cloudspaces.filter
              (fun c => !(c.nspace == ns &&
                names.contains c.name))) } ∧
      (runCsDeletes ns w names).2.2 =
        names.map (ApiCall.deleteCloudspace ns) := by
  intro names
  induction names with
  | nil =>
    intro w _ _ _
    refine ⟨rfl, ?_, rfl⟩
    rw [List.filter_eq_self.mpr (fun p _ => by simp)]
    rfl
  | cons n rest ih =>
    intro w hds hnd hex
    rw [List.nodup_cons] at hnd
    have hanyn : w.cloudspaces.any
        (fun c => c.nspace == ns && c.name == n) = true := by
      obtain ⟨c, hc, h1, h2⟩ := hex n (by simp)
      exact List.any_eq_true.mpr ⟨c, hc, by simp [h1, h2]⟩
    have hdel : w_delete_cloudspace w ns n =
        .ok { w with cloudspaces :=
          (w.cloudspaces.filter
            (fun c => !(c.nspace == ns && c.name == n))) } := by
      simp [w_delete_cloudspace, hds, hanyn]
    rw [runCsDeletes_cons_ok ns n rest w _ hdel]
    have hex' : ∀ m ∈ rest, ∃ c,
        c ∈ (w.cloudspaces.filter
          (fun c => !(c.nspace == ns && c.name == n))) ∧
        c.nspace = ns ∧ c.name = m := by
      intro m hm
      obtain ⟨c, hc, h1, h2⟩ := hex m (by simp [hm])
      have hmn : m ≠ n := fun he => hnd.1 (he ▸ hm)
      refine ⟨c, List.mem_filter.mpr ⟨hc, ?_⟩, h1, h2⟩
      have : (c.name == n) = false := by
        rw [h2]; exact beq_eq_false_iff_ne.mpr hmn
      simp [this]
    have hrun := ih { w with cloudspaces :=
      (w.cloudspaces.filter
        (fun c => !(c.nspace == ns && c.name == n))) } hds hnd.2 hex'
    refine ⟨hrun.1, ?_, ?_⟩
    · rw [hrun.2.1]
      simp only [List.filter_filter]
      have hflt : (w.cloudspaces.filter
          (fun c => (!(c.nspace == ns && rest.contains c.name)) &&
            (!(c.nspace == ns && c.name == n)))) =
          (w.cloudspaces.filter
            (fun c => !(c.nspace == ns && (n :: rest).contains c.name))) := by
        apply List.filter_congr
        intro c _
        by_cases hns : c.nspace = ns <;> by_cases hcn : c.name = n <;>
          simp [List.contains_cons, hns, hcn]
      rw [hflt]
    · rw [hrun.2.2]; rfl

/-- Unfolding equation of `cleanup_environment` given the outcome of the
three delete phases (the first two succeeding). -/
theorem cleanup_environment_eq (w : World) (ns : String) (res : EnvResult)
    (W1 W2 W3 : World) (TR1 TR2 TR3 : List ApiCall)
    (e3 : Option RackspaceSpotAPIError)
    (h1 : runSpotDeletes ns w (spot_delete_names res.spot_pools
      (w.spot_pools.filter (fun p => p.nspace == ns))) = (none, W1, TR1))
    (h2 : runOdDeletes ns W1 (od_delete_names res.on_demand_pools
      (W1.on_demand_pools.filter (fun p => p.nspace == ns))) =
        (none, W2, TR2))
    (h3 : runCsDeletes ns W2 (cs_delete_names res.cloudspace.name
      (W2.cloudspaces.filter (fun c => c.nspace == ns))) = (e3, W3, TR3)) :
    cleanup_environment w ns res =
      (e3.isNone, W3,
       .listSpotPools ns :: TR1 ++ .listOnDemandPools ns :: TR2 ++
         .listCloudspaces ns :: TR3) := by
  unfold cleanup_environment
  simp only []
  rw [h1]
  simp only []
  rw [h2]
  simp only []
  rw [h3]

/-- The world state after the spot and on-demand phases of a successful
cleanup: the pools of the namespace named in the resource set are gone. -/
def afterPoolPhases (w : World) (ns : String) (res : EnvResult) : World :=
  { cloudspaces := w.cloudspaces
    spot_pools :=
      (w.spot_pools.filter
        (fun p => !(p.nspace == ns &&
          (spot_delete_names res.spot_pools
            (w.spot_pools.filter
              (fun p => p.nspace == ns))).contains p.name)))
    on_demand_pools :=
      (w.on_demand_pools.filter
        (fun p => !(p.nspace == ns &&
          (od_delete_names res.on_demand_pools
            (w.on_demand_pools.filter
              (fun p => p.nspace == ns))).contains p.name)))
    fresh := w.fresh
    get_cloudspace_status := w.get_cloudspace_status
    delete_cloudspace_status := w.delete_cloudspace_status }

/-- Folding equation for `afterPoolPhases`. -/
theorem afterPoolPhases_fold (w : World) (ns : String) (res : EnvResult) :
    ({ cloudspaces := w.cloudspaces
       spot_pools :=
         (w.spot_pools.filter
           (fun p => !(p.nspace == ns &&
             (spot_delete_names res.spot_pools
               (w.spot_pools.filter
                 (fun p => p.nspace == ns))).contains p.name)))
       on_demand_pools :=
         (w.on_demand_pools.filter
           (fun p => !(p.nspace == ns &&
             (od_delete_names res.on_demand_pools
               (w.on_demand_pools.filter
                 (fun p => p.nspace == ns))).contains p.name)))
       fresh := w.fresh
       get_cloudspace_status := w.get_cloudspace_status
       delete_cloudspace_status := w.delete_cloudspace_status } : World) =
      afterPoolPhases w ns res := rfl

/-- C6: `cleanup_environment` deletes exactly those listed resources
whose name exactly matches a member of the caller-supplied resource set
(a pool of the namespace whose name is not in the set survives), issues
its calls in three phases in the order spot pools, then on-demand pools,
then the cloudspace, and returns True on success; when a delete fails
(here injected on the cloudspace delete) the error is caught and False
is returned instead of the error propagating.  Name uniqueness per
namespace (the (name, namespace) key invariant of the spec) and in the
resource set is assumed. -/
theorem cleanup_exact_membership_order_besteffort
    (w : World) (ns : String) (res : EnvResult)
    (hsnd : ((w.spot_pools.filter (fun p => p.nspace == ns)).map
      SpotNodePool.name).Nodup)
    (hund : (res.spot_pools.map SpotNodePool.name).Nodup)
    (hond : ((w.on_demand_pools.filter (fun p => p.nspace == ns)).map
      OnDemandNodePool.name).Nodup)
    (huod : (res.on_demand_pools.map OnDemandNodePool.name).Nodup)
    (hcnd : ((w.cloudspaces.filter (fun c => c.nspace == ns)).map
      CloudSpace.name).Nodup) :
    (w.delete_cloudspace_status = none →
      (cleanup_environment w ns res).1 = true ∧
      (cleanup_environment w ns res).2.1.spot_pools =
        w.spot_pools.filter (fun p => !(p.nspace == ns &&
          (res.spot_pools.map SpotNodePool.name).contains p.name)) ∧
      (cleanup_environment w ns res).2.1.on_demand_pools =
        w.on_demand_pools.filter (fun p => !(p.nspace == ns &&
          (res.on_demand_pools.map OnDemandNodePool.name).contains p.name)) ∧
      (cleanup_environment w ns res).2.1.cloudspaces =
        w.cloudspaces.filter (fun c => !(c.nspace == ns &&
          c.name == res.cloudspace.name)) ∧
      (∃ t1 t2 t3, (cleanup_environment w ns res).2.2 = t1 ++ t2 ++ t3 ∧
        t1.all isSpotPhase = true ∧ t2.all isOdPhase = true ∧
        t3.all isCsPhase = true)) ∧
    (∀ s : Nat, w.delete_cloudspace_status = some s →
      (∃ c, c ∈ w.cloudspaces ∧ c.nspace = ns ∧
        c.name = res.cloudspace.name) →
      (cleanup_environment w ns res).1 = false) := by
  -- spot phase
  have hnamesS_eq := spot_delete_names_eq
    (w.spot_pools.filter (fun p => p.nspace == ns)) hsnd res.spot_pools
  have hndS : (spot_delete_names res.spot_pools
      (w.spot_pools.filter (fun p => p.nspace == ns))).Nodup := by
    rw [hnamesS_eq]
    exact filterMap_name_nodup _ _ _ hund
  have hexS : ∀ n ∈ spot_delete_names res.spot_pools
      (w.spot_pools.filter (fun p => p.nspace == ns)),
      ∃ p, p ∈ w.spot_pools ∧ p.nspace = ns ∧ p.name = n := by
    intro n hn
    rw [hnamesS_eq] at hn
    obtain ⟨u, hu, hun, hcond⟩ := (mem_filterMap_name_iff _ _ _ _).mp hn
    obtain ⟨a, ha, hab⟩ := List.any_eq_true.mp hcond
    obtain ⟨ha1, ha2⟩ := List.mem_filter.mp ha
    exact ⟨a, ha1, beq_iff_eq.mp ha2, by rw [beq_iff_eq.mp hab, hun]⟩
  have hrunS := runSpotDeletes_ok ns (spot_delete_names res.spot_pools
    (w.spot_pools.filter (fun p => p.nspace == ns))) w hndS hexS
  have h1 : runSpotDeletes ns w (spot_delete_names res.spot_pools
      (w.spot_pools.filter (fun p => p.nspace == ns))) =
      (none,
       { w with spot_pools :=
          (w.spot_pools.filter
            (fun p => !(p.nspace == ns &&
              (spot_delete_names res.spot_pools
                (w.spot_pools.filter
                  (fun p => p.nspace == ns))).contains p.name))) },
       (spot_delete_names res.spot_pools
         (w.spot_pools.filter (fun p => p.nspace == ns))).map
           (ApiCall.deleteSpotPool ns)) := by
    rw [← hrunS.1, ← hrunS.2.1, ← hrunS.2.2]
  -- on-demand phase (the spot phase leaves the on-demand pools intact)
  have hndO : (od_delete_names res.on_demand_pools
      (w.on_demand_pools.filter (fun p => p.nspace == ns))).Nodup := by
    rw [od_delete_names_eq
      (w.on_demand_pools.filter (fun p => p.nspace == ns)) hond
      res.on_demand_pools]
    exact filterMap_name_nodup _ _ _ huod
  have hexO : ∀ n ∈ od_delete_names res.on_demand_pools
      (w.on_demand_pools.filter (fun p => p.nspace == ns)),
      ∃ p, p ∈ w.on_demand_pools ∧ p.nspace = ns ∧ p.name = n := by
    intro n hn
    rw [od_delete_names_eq
      (w.on_demand_pools.filter (fun p => p.nspace == ns)) hond
      res.on_demand_pools] at hn
    obtain ⟨u, hu, hun, hcond⟩ := (mem_filterMap_name_iff _ _ _ _).mp hn
    obtain ⟨a, ha, hab⟩ := List.any_eq_true.mp hcond
    obtain ⟨ha1, ha2⟩ := List.mem_filter.mp ha
    exact ⟨a, ha1, beq_iff_eq.mp ha2, by rw [beq_iff_eq.mp hab, hun]⟩
  have hrunO := runOdDeletes_ok ns (od_delete_names res.on_demand_pools
      (w.on_demand_pools.filter (fun p => p.nspace == ns)))
    { w with spot_pools :=
      (w.spot_pools.filter
        (fun p => !(p.nspace == ns &&
          (spot_delete_names res.spot_pools
            (w.spot_pools.filter
              (fun p => p.nspace == ns))).contains p.name))) }
    hndO hexO
  -- cloudspace phase names
  have hndC : (cs_delete_names res.cloudspace.name
      (w.cloudspaces.filter (fun c => c.nspace == ns))).Nodup :=
    filterMap_name_nodup _ _ _ hcnd
  have hexC : ∀ n ∈ cs_delete_names res.cloudspace.name
      (w.cloudspaces.filter (fun c => c.nspace == ns)),
      ∃ c, c ∈ w.cloudspaces ∧ c.nspace = ns ∧ c.name = n := by
    intro n hn
    obtain ⟨a, ha, hun, _⟩ := (mem_filterMap_name_iff _ _ _ _).mp hn
    obtain ⟨ha1, ha2⟩ := List.mem_filter.mp ha
    exact ⟨a, ha1, beq_iff_eq.mp ha2, hun⟩
  have h2c : (runOdDeletes ns
      (runSpotDeletes ns w (spot_delete_names res.spot_pools
        (w.spot_pools.filter (fun p => p.nspace == ns)))).2.1
      (od_delete_names res.on_demand_pools
        ((runSpotDeletes ns w (spot_delete_names res.spot_pools
          (w.spot_pools.filter
            (fun p => p.nspace == ns)))).2.1.on_demand_pools.filter
              (fun p => p.nspace == ns)))).1 = none := by
    rw [hrunS.2.1]
    exact hrunO.1
  have hcl := cleanup_environment_eq w ns res _ _ _ _ _ _ _
    (by rw [← hrunS.1]) (by rw [← h2c]) rfl
  rw [hrunS.2.1, hrunS.2.2] at hcl
  simp only [] at hcl
  rw [hrunO.2.1, hrunO.2.2] at hcl
  simp only [] at hcl
  rw [afterPoolPhases_fold w ns res] at hcl
  constructor
  · -- success part
    intro hds
    have hrunC := runCsDeletes_ok ns (cs_delete_names res.cloudspace.name
        (w.cloudspaces.filter (fun c => c.nspace == ns)))
      (afterPoolPhases w ns res) hds hndC hexC
    rw [hrunC.1, hrunC.2.1, hrunC.2.2] at hcl
    simp only [Option.isNone_none] at hcl
    have hconvS : (w.spot_pools.filter
        (fun p => !(p.nspace == ns &&
          (spot_delete_names res.spot_pools
            (w.spot_pools.filter
              (fun p => p.nspace == ns))).contains p.name))) =
        (w.spot_pools.filter (fun p => !(p.nspace == ns &&
          (res.spot_pools.map SpotNodePool.name).contains p.name))) := by
      apply List.filter_congr
      intro p hp
      by_cases hns : p.nspace = ns
      · have hiff : ((spot_delete_names res.spot_pools
            (w.spot_pools.filter
              (fun p => p.nspace == ns))).contains p.name = true) ↔
            ((res.spot_pools.map SpotNodePool.name).contains p.name =
              true) := by
          rw [contains_iff_mem_str, contains_iff_mem_str, hnamesS_eq]
          constructor
          · intro hmem
            obtain ⟨u, hu, hun, _⟩ :=
              (mem_filterMap_name_iff _ _ _ _).mp hmem
            rw [← hun]
            exact List.mem_map_of_mem _ hu
          · intro hmm
            obtain ⟨u, hu, hun⟩ := List.mem_map.mp hmm
            exact (mem_filterMap_name_iff _ _ _ _).mpr
              ⟨u, hu, hun, List.any_eq_true.mpr
                ⟨p, List.mem_filter.mpr ⟨hp, by simp [hns]⟩,
                 by simp [hun]⟩⟩
        have hb : ((spot_delete_names res.spot_pools
            (w.spot_pools.filter
              (fun p => p.nspace == ns))).contains p.name) =
            ((res.spot_pools.map SpotNodePool.name).contains p.name) := by
          rw [Bool.eq_iff_iff]
          exact hiff
        rw [hb]
      · rw [beq_eq_false_iff_ne.mpr hns]
        rfl
    have hconvO : (w.on_demand_pools.filter
        (fun p => !(p.nspace == ns &&
          (od_delete_names res.on_demand_pools
            (w.on_demand_pools.filter
              (fun p => p.nspace == ns))).contains p.name))) =
        (w.on_demand_pools.filter (fun p => !(p.nspace == ns &&
          (res.on_demand_pools.map OnDemandNodePool.name).contains
            p.name))) := by
      apply List.filter_congr
      intro p hp
      by_cases hns : p.nspace = ns
      · have hiff : ((od_delete_names res.on_demand_pools
            (w.on_demand_pools.filter
              (fun p => p.nspace == ns))).contains p.name = true) ↔
            ((res.on_demand_pools.map OnDemandNodePool.name).contains
              p.name = true) := by
          rw [contains_iff_mem_str, contains_iff_mem_str,
              od_delete_names_eq
                (w.on_demand_pools.filter (fun p => p.nspace == ns)) hond
                res.on_demand_pools]
          constructor
          · intro hmem
            obtain ⟨u, hu, hun, _⟩ :=
              (mem_filterMap_name_iff _ _ _ _).mp hmem
            rw [← hun]
            exact List.mem_map_of_mem _ hu
          · intro hmm
            obtain ⟨u, hu, hun⟩ := List.mem_map.mp hmm
            exact (mem_filterMap_name_iff _ _ _ _).mpr
              ⟨u, hu, hun, List.any_eq_true.mpr
                ⟨p, List.mem_filter.mpr ⟨hp, by simp [hns]⟩,
                 by simp [hun]⟩⟩
        have hb : ((od_delete_names res.on_demand_pools
            (w.on_demand_pools.filter
              (fun p => p.nspace == ns))).contains p.name) =
            ((res.on_demand_pools.map OnDemandNodePool.name).contains
              p.name) := by
          rw [Bool.eq_iff_iff]
          exact hiff
        rw [hb]
      · rw [beq_eq_false_iff_ne.mpr hns]
        rfl
    have hconvC : (w.cloudspaces.filter
        (fun c => !(c.nspace == ns &&
          (cs_delete_names res.cloudspace.name
            (w.cloudspaces.filter
              (fun c => c.nspace == ns))).contains c.name))) =
        (w.cloudspaces.filter (fun c => !(c.nspace == ns &&
          c.name == res.cloudspace.name))) := by
      apply List.filter_congr
      intro c hc
      by_cases hns : c.nspace = ns
      · have hiff : ((cs_delete_names res.cloudspace.name
            (w.cloudspaces.filter
              (fun c => c.nspace == ns))).contains c.name = true) ↔
            ((c.name == res.cloudspace.name) = true) := by
          rw [contains_iff_mem_str]
          constructor
          · intro hmem
            obtain ⟨a, _, han, hat⟩ :=
              (mem_filterMap_name_iff _ _ _ _).mp hmem
            rw [← han]
            exact hat
          · intro ht
            exact (mem_filterMap_name_iff _ _ _ _).mpr
              ⟨c, List.mem_filter.mpr ⟨hc, by simp [hns]⟩, rfl, ht⟩
        have hb : ((cs_delete_names res.cloudspace.name
            (w.cloudspaces.filter
              (fun c => c.nspace == ns))).contains c.name) =
            (c.name == res.cloudspace.name) := by
          rw [Bool.eq_iff_iff]
          exact hiff
        rw [hb]
      · rw [beq_eq_false_iff_ne.mpr hns]
        rfl
    refine ⟨?_, ?_, ?_, ?_, ?_⟩
    · rw [hcl]
    · rw [hcl]
      simp only []
      exact hconvS
    · rw [hcl]
      simp only []
      exact hconvO
    · rw [hcl]
      simp only []
      exact hconvC
    · refine ⟨ApiCall.listSpotPools ns ::
        (spot_delete_names res.spot_pools
          (w.spot_pools.filter (fun p => p.nspace == ns))).map
            (ApiCall.deleteSpotPool ns),
        ApiCall.listOnDemandPools ns ::
          (od_delete_names res.on_demand_pools
            (w.on_demand_pools.filter (fun p => p.nspace == ns))).map
              (ApiCall.deleteOnDemandPool ns),
        ApiCall.listCloudspaces ns ::
          (cs_delete_names res.cloudspace.name
            (w.cloudspaces.filter (fun c => c.nspace == ns))).map
              (ApiCall.deleteCloudspace ns), ?_, ?_, ?_, ?_⟩
      · rw [hcl]
      · rw [List.all_eq_true]
        intro x hx
        rcases List.mem_cons.mp hx with h | h
        · subst h; rfl
        · obtain ⟨n, _, rfl⟩ := List.mem_map.mp h; rfl
      · rw [List.all_eq_true]
        intro x hx
        rcases List.mem_cons.mp hx with h | h
        · subst h; rfl
        · obtain ⟨n, _, rfl⟩ := List.mem_map.mp h; rfl
      · rw [List.all_eq_true]
        intro x hx
        rcases List.mem_cons.mp hx with h | h
        · subst h; rfl
        · obtain ⟨n, _, rfl⟩ := List.mem_map.mp h; rfl
  · -- failure part
    intro s hds2 hex0
    obtain ⟨c0, hc0, hc0ns, hc0n⟩ := hex0
    have hneC : cs_delete_names res.cloudspace.name
        (w.cloudspaces.filter (fun c => c.nspace == ns)) ≠ [] := by
      intro hnil
      rw [show cs_delete_names res.cloudspace.name
          (w.cloudspaces.filter (fun c => c.nspace == ns)) =
          (w.cloudspaces.filter (fun c => c.nspace == ns)).filterMap
            (fun c => if c.name == res.cloudspace.name then some c.name
              else none) from rfl, List.filterMap_eq_nil_iff] at hnil
      have hc0mem : c0 ∈ w.cloudspaces.filter (fun c => c.nspace == ns) :=
        List.mem_filter.mpr ⟨hc0, by simp [hc0ns]⟩
      have hx := hnil c0 hc0mem
      rw [if_pos (by simp [hc0n])] at hx
      cases hx
    obtain ⟨n0, rest0, hcons⟩ := List.exists_cons_of_ne_nil hneC
    have hW2ds : (afterPoolPhases w ns res).delete_cloudspace_status =
        some s := hds2
    have hdelE : w_delete_cloudspace (afterPoolPhases w ns res) ns n0 =
        .error (http_error s) := by
      simp [w_delete_cloudspace, hW2ds]
    have hC : runCsDeletes ns (afterPoolPhases w ns res)
        (cs_delete_names res.cloudspace.name
          (w.cloudspaces.filter (fun c => c.nspace == ns))) =
        (some (http_error s), afterPoolPhases w ns res,
         [ApiCall.deleteCloudspace ns n0]) := by
      rw [hcons]
      exact runCsDeletes_cons_error ns n0 rest0 _ _ hdelE
    rw [hC] at hcl
    rw [hcl]
    rfl
/-- A spot pool named `n` in namespace n1, for the cleanup scenario. -/
def c6p (n : String) : SpotNodePool :=
  { name := n, nspace := "n1", cloudspace := "c1", server_class := "gp",
    desired := 1, bid_price := "0.5" }

/-- The cleanup-scenario cloudspace. -/
def c6cs : CloudSpace :=
  { name := "c1", nspace := "n1", region := "r1",
    kubernetes_version := "1.31.1" }

/-- The cleanup-scenario on-demand pool. -/
def c6q : OnDemandNodePool :=
  { name := "q1", nspace := "n1", cloudspace := "c1", server_class := "gp",
    desired := 1 }

/-- Cleanup-scenario world: namespace n1 holds pools p1, p2, p3, the
on-demand pool q1 and the cloudspace c1. -/
def c6w : World :=
  { cloudspaces := [c6cs],
    spot_pools := [c6p "p1", c6p "p2", c6p "p3"],
    on_demand_pools := [c6q] }

/-- Cleanup-scenario resource set: only p1 and p2, q1 and c1. -/
def c6res : EnvResult :=
  { cloudspace := c6cs, spot_pools := [c6p "p1", c6p "p2"],
    on_demand_pools := [c6q] }

/-- The cleanup-scenario world with a 500 fault on cloudspace delete. -/
def c6wf : World := { c6w with delete_cloudspace_status := some 500 }

/-- Witness for C6: cleanup on the concrete scenario deletes p1 and p2
but leaves the unrelated p3, removes the cloudspace, and returns True;
with a delete fault injected it returns False instead of raising. -/
theorem cleanup_exact_membership_order_besteffort_witness :
    (cleanup_environment c6w "n1" c6res).1 = true ∧
    (cleanup_environment c6w "n1" c6res).2.1.spot_pools = [c6p "p3"] ∧
    (cleanup_environment c6w "n1" c6res).2.1.cloudspaces = [] ∧
    (cleanup_environment c6wf "n1" c6res).1 = false := by
  have hA := (cleanup_exact_membership_order_besteffort c6w "n1" c6res
    (by decide) (by decide) (by decide) (by decide) (by decide)).1 rfl
  have hB := (cleanup_exact_membership_order_besteffort c6wf "n1" c6res
    (by decide) (by decide) (by decide) (by decide) (by decide)).2 500 rfl
    ⟨c6cs, by decide, rfl, rfl⟩
  exact ⟨hA.1, hA.2.1.trans (by decide), hA.2.2.2.1.trans (by decide), hB⟩

end SpotSDK
